import Mathlib

/-!
Verification development for the `metadata_lib` repository: a shallow
embedding in Lean 4 of the metadata graph build, key-derivation,
integration, flattening, validation and transaction machinery
(`build.py`, `unid.py`, `validate.py`, `manage.py`,
`definitions/allowed_values.py`), together with theorems settling the
specification claims.

Modelling conventions:
* Python dicts are insertion-ordered association lists; assignment
  replaces the value of an existing key in place and appends new keys.
* Python exceptions are modelled with `Except PyErr`; functions whose
  reachable paths cannot raise are total.
* A reference field (`int | str | object` in the source) before
  integration is the `Ref` sum of a numeric id and a UNID string; the
  integrated (denormalised) entities are separate structures.
* Timestamps are abstract `Nat` ticks; wall-clock reads
  (`pendulum.now`) are passed in as parameters or omitted where they
  do not influence any observable checked here.
* The pandas presentation layer (`view.py`) is a pure projection that
  the spec excludes from the core; it is not embedded and no claim
  depends on it.
* The Python keyword-clashing field name `namespace` is rendered
  `nspace`.
-/

namespace MetadataLib

/-- Python exception outcomes reachable in the embedded code paths. -/
inductive PyErr where
  | keyError : PyErr
  | nameError : String → PyErr
  | typeError : String → PyErr
  | valueError : String → PyErr
deriving Repr, DecidableEq

/-- Python values appearing in config maps, schema bodies and flattened
instance records. -/
inductive PyVal where
  | vInt : Int → PyVal
  | vStr : String → PyVal
  | vBool : Bool → PyVal
  | vNone : PyVal
  | vList : List PyVal → PyVal
  | vDict : List (String × PyVal) → PyVal
deriving Repr, BEq

/-- A Python dict with `String` keys, as an insertion-ordered association
list. -/
abbrev PyDict := List (String × PyVal)

/-- Python `d[k]` as an `Option`: value of the first (unique) matching key. -/
def pyGet? [BEq κ] : List (κ × α) → κ → Option α
  | [], _ => none
  | p :: rest, k => if p.1 == k then some p.2 else pyGet? rest k

/-- Python `d[k] = v`: replace the value of an existing key in place,
else append the new binding. -/
def pyInsert [BEq κ] : List (κ × α) → κ → α → List (κ × α)
  | [], k, v => [(k, v)]
  | p :: rest, k, v =>
      if p.1 == k then (k, v) :: rest else p :: pyInsert rest k v

/-- Python `d.update(kvs)`: insert every binding of `kvs` in order. -/
def pyUpdate [BEq κ] (d : List (κ × α)) (kvs : List (κ × α)) : List (κ × α) :=
  kvs.foldl (fun acc kv => pyInsert acc kv.1 kv.2) d

/-- Python `del d[k]` on a dict whose keys are unique (callers check
membership first). -/
def pyRemove [BEq κ] : List (κ × α) → κ → List (κ × α)
  | [], _ => []
  | p :: rest, k => if p.1 == k then rest else p :: pyRemove rest k

/-- Python `str.startswith(pre)`, via structural list recursion. -/
def pyStartsWith (s pre : String) : Bool :=
  pre.data.isPrefixOf s.data

/-- Python `k in d.keys()`. -/
def pyHasKey [BEq κ] (d : List (κ × α)) (k : κ) : Bool :=
  (pyGet? d k).isSome

/-! ## definitions/allowed_values.py -/

/-- Names of metadata entities allowed to be in the metadata structure. -/
def ENTITIES : List String :=
  ["namespaces", "schemas", "systems", "data_entities", "pipelines",
   "dag_config"]

/-- Keys from a pipeline that are to be toplevel keys in a flat instance. -/
def FLAT_PL_KEYS : List String :=
  ["id", "unid", "namespace", "name", "type", "version", "scope", "velocity"]

/-- Keys from a data_entity that are to be toplevel keys in a flat instance. -/
def FLAT_ENT_KEYS : List String :=
  ["id", "unid", "namespace", "name", "type", "interface", "entity_schema"]

/-- Keys from a system that are to be toplevel keys in a flat instance. -/
def FLAT_SYS_KEYS : List String :=
  ["id", "unid", "namespace", "name", "type"]

/-- Reserved prefixes that keys in a config dict must not have. -/
def RESERVED_CONFIG_KEY_PREFIXES : List String := ["pl_", "ent_", "sys_"]

/-- Valid values for the `type` key of a schema. -/
def SCHEMA_TYPES : List String := ["avro", "bigquery"]

/-- Valid values for the `type` key of a system. -/
def SYSTEM_TYPES : List String := ["external", "internal", "platform"]

/-- Valid values for the `type` key of a data_entity. -/
def DATA_ENTITY_ALLOWED_TYPES : List String := ["datasource", "dataset"]

/-- Valid values for the `interface` key of a data_entity. -/
def DATA_ENTITY_ALLOWED_INTERFACES : List String :=
  ["api_rest", "api_graphql", "sql", "google_cloud_storage"]

/-- Valid values for the `scope` key of a pipeline. -/
def PIPELINE_ALLOWED_SCOPES : List String := ["single", "compound"]

/-- Valid values for the `type` key of a pipeline. -/
def PIPELINE_ALLOWED_TYPES : List String := ["ingest", "transform", "delivery"]

/-- Valid values for the `velocity` key of a pipeline. -/
def PIPELINE_ALLOWED_VELOCITY : List String := ["batch", "streaming"]

/-! ## schemas/ : the five entity models (pydantic `BaseModel`s)

A foreign-key field is `int | str` in every core flow (the embedded-object
alternative of the pydantic union only appears after integration, which
produces the separate `I*` structures below). -/

/-- A polymorphic reference: numeric id or compound key (UNID). -/
inductive Ref where
  | rid : Nat → Ref
  | runid : String → Ref
deriving Repr, DecidableEq

/-- `schemas/namespace.py` `Namespace`. -/
structure Namespace where
  id : Nat
  unid : Option String := none
  name : String
  description : Option String := none
  created : Nat
  modified : Nat
deriving Repr, DecidableEq

/-- `schemas/schema.py` `Schema`; `entity_schema` is the free-form schema
body (`list | dict | None`). -/
structure Schema where
  id : Nat
  unid : Option String := none
  nspace : Ref
  name : String
  description : Option String := none
  type : String
  version : Nat
  entity_schema : Option PyVal := none
  created : Nat
  modified : Nat
deriving Repr, BEq

/-- `schemas/system.py` `System`. -/
structure System where
  id : Nat
  unid : Option String := none
  nspace : Ref
  name : String
  description : Option String := none
  type : String
  config : Option PyDict := none
  created : Nat
  modified : Nat
deriving Repr, BEq

/-- `schemas/data_entity.py` `Data_entity`. -/
structure Data_entity where
  id : Nat
  unid : Option String := none
  nspace : Ref
  system : Ref
  name : String
  description : Option String := none
  type : String
  interface : String
  entity_schema : Ref
  checks : Option (List PyVal) := none
  config : Option PyDict := none
  created : Nat
  modified : Nat
deriving Repr, BEq

/-- One side (`input` or `output`) of a pipeline instance: a single
reference or a list of references. -/
inductive IOSide where
  | one : Ref → IOSide
  | many : List Ref → IOSide
deriving Repr, DecidableEq

/-- One `{input, output}` pair of a pipeline's `input_output` list. -/
structure PInstance where
  input : IOSide
  output : IOSide
deriving Repr, DecidableEq

/-- `schemas/pipeline.py` `Pipeline`. -/
structure Pipeline where
  id : Nat
  unid : Option String := none
  nspace : Ref
  name : String
  description : Option String := none
  enabled : Bool
  version : Nat
  scope : String
  type : String
  velocity : String
  input_output : List PInstance
  config : Option PyDict := none
  created : Nat
  modified : Nat
deriving Repr, BEq

/-- The `md_objects` form: one list of typed objects per entity type, in
the fixed dict insertion order namespaces, schemas, systems,
data_entities, pipelines. -/
structure MDObjects where
  namespaces : List Namespace
  schemas : List Schema
  systems : List System
  data_entities : List Data_entity
  pipelines : List Pipeline
deriving Repr, BEq

/-- The `by_id` form: per entity type, a dict from numeric id to object. -/
structure IdIdx where
  namespaces_idx : List (Nat × Namespace)
  schemas_idx : List (Nat × Schema)
  systems_idx : List (Nat × System)
  data_entities_idx : List (Nat × Data_entity)
  pipelines_idx : List (Nat × Pipeline)
deriving Repr, BEq

/-- The `by_unid` form: per entity type, a dict from the object's `unid`
field to the object. The key type is `Option String` because the source
keys the dict by the attribute itself, which is `None` until
`generate_unids` has run. -/
structure UnidIdx where
  namespaces_unid_idx : List (Option String × Namespace)
  schemas_unid_idx : List (Option String × Schema)
  systems_unid_idx : List (Option String × System)
  data_entities_unid_idx : List (Option String × Data_entity)
  pipelines_unid_idx : List (Option String × Pipeline)
deriving Repr, BEq

/-! ## build.py : indexing -/

/-- `build.py` `create_id_indexes`: per type, fill a dict keyed by each
object's `id` by iterating the `md_objects` list in order (a later record
with the same id overwrites the earlier one, as Python dict assignment
does). -/
def create_id_indexes (metadata_obj : MDObjects) : IdIdx :=
  { namespaces_idx :=
      metadata_obj.namespaces.foldl (fun d ns => pyInsert d ns.id ns) []
    schemas_idx :=
      metadata_obj.schemas.foldl (fun d sch => pyInsert d sch.id sch) []
    systems_idx :=
      metadata_obj.systems.foldl (fun d sys => pyInsert d sys.id sys) []
    data_entities_idx :=
      metadata_obj.data_entities.foldl (fun d ent => pyInsert d ent.id ent) []
    pipelines_idx :=
      metadata_obj.pipelines.foldl (fun d pl => pyInsert d pl.id pl) [] }

/-! ## unid.py : compound-key (UNID) derivation

Each function raises `KeyError` (here `.error .keyError`) when a
required id is absent from the corresponding index; a UNID-string
reference used where an id is expected also misses the integer-keyed
dict and raises `KeyError`. -/

/-- `unid.py` `namespace_id_to_unid`: the namespace's `name`. -/
def namespace_id_to_unid (metadata_id_idx : IdIdx) (id : Nat) :
    Except PyErr String :=
  match pyGet? metadata_id_idx.namespaces_idx id with
  | some ns => .ok ns.name
  | none => .error .keyError

/-- Resolve a namespace `Ref` the way the source passes the raw field as a
dict key: an id is looked up, a UNID string misses the integer-keyed dict. -/
def namespace_ref_to_unid (metadata_id_idx : IdIdx) : Ref →
    Except PyErr String
  | .rid n => namespace_id_to_unid metadata_id_idx n
  | .runid _ => .error .keyError

/-- `unid.py` `schema_id_to_unid`: `name.version`. -/
def schema_id_to_unid (metadata_id_idx : IdIdx) (id : Nat) :
    Except PyErr String :=
  match pyGet? metadata_id_idx.schemas_idx id with
  | some sch => .ok (sch.name ++ "." ++ toString sch.version)
  | none => .error .keyError

/-- `unid.py` `system_id_to_unid`: `<namespace-unid>.name`. -/
def system_id_to_unid (metadata_id_idx : IdIdx) (id : Nat) :
    Except PyErr String :=
  match pyGet? metadata_id_idx.systems_idx id with
  | some sys => do
      let ns ← namespace_ref_to_unid metadata_id_idx sys.nspace
      .ok (ns ++ "." ++ sys.name)
  | none => .error .keyError

/-- Resolve a system `Ref` as `system_id_to_unid` is called on the raw
`system` field of a data entity. -/
def system_ref_to_unid (metadata_id_idx : IdIdx) : Ref → Except PyErr String
  | .rid n => system_id_to_unid metadata_id_idx n
  | .runid _ => .error .keyError

/-- `unid.py` `data_entity_id_to_unid`:
`<namespace-unid>.<system-unid>.name.type`. -/
def data_entity_id_to_unid (metadata_id_idx : IdIdx) (id : Nat) :
    Except PyErr String :=
  match pyGet? metadata_id_idx.data_entities_idx id with
  | some ent => do
      let ns ← namespace_ref_to_unid metadata_id_idx ent.nspace
      let sys_unid ← system_ref_to_unid metadata_id_idx ent.system
      .ok (ns ++ "." ++ sys_unid ++ "." ++ ent.name ++ "." ++ ent.type)
  | none => .error .keyError

/-- `unid.py` `pipeline_id_to_unid`: `<namespace-unid>.name.type.version`. -/
def pipeline_id_to_unid (metadata_id_idx : IdIdx) (id : Nat) :
    Except PyErr String :=
  match pyGet? metadata_id_idx.pipelines_idx id with
  | some pl => do
      let ns ← namespace_ref_to_unid metadata_id_idx pl.nspace
      .ok (ns ++ "." ++ pl.name ++ "." ++ pl.type ++ "." ++ toString pl.version)
  | none => .error .keyError

/-- `unid.py` `id_to_unid`: dispatch on the entity-type name; a name
outside `ENTITIES` raises `ValueError`, and so does `dag_config`, which
reaches the final `else`. -/
def id_to_unid (metadata_id_idx : IdIdx) (metadata_entity : String)
    (id : Nat) : Except PyErr String :=
  if ¬ ENTITIES.contains metadata_entity then
    .error (.valueError (metadata_entity ++ " is not a valid metadata entity."))
  else if metadata_entity == "namespaces" then
    namespace_id_to_unid metadata_id_idx id
  else if metadata_entity == "schemas" then
    schema_id_to_unid metadata_id_idx id
  else if metadata_entity == "systems" then
    system_id_to_unid metadata_id_idx id
  else if metadata_entity == "data_entities" then
    data_entity_id_to_unid metadata_id_idx id
  else if metadata_entity == "pipelines" then
    pipeline_id_to_unid metadata_id_idx id
  else
    .error (.valueError (metadata_entity ++ " Cannot be processed by id_to_unid()"))

/-! ## validate.py : support functions -/

/-- `validate.py` `id_exists`: membership of `id` in the per-type id
index. The source raises `ValueError` for an entity name outside
`ENTITIES` and `KeyError` for `dag_config` (which has no index); every
caller passes one of the five literals matched below. -/
def id_exists (metadata_id_idx : IdIdx) (entity : String) (id : Nat) : Bool :=
  if entity == "namespaces" then pyHasKey metadata_id_idx.namespaces_idx id
  else if entity == "schemas" then pyHasKey metadata_id_idx.schemas_idx id
  else if entity == "systems" then pyHasKey metadata_id_idx.systems_idx id
  else if entity == "data_entities" then
    pyHasKey metadata_id_idx.data_entities_idx id
  else if entity == "pipelines" then pyHasKey metadata_id_idx.pipelines_idx id
  else false

/-- `validate.py` `unid_exists`: membership of the string `unid` among
the keys of the per-type unid index (matching only `some`-keys, as a
Python `str` never equals `None`). Same caller discipline as
`id_exists`. -/
def unid_exists (metadata_unid_idx : UnidIdx) (entity : String)
    (unid : String) : Bool :=
  if entity == "namespaces" then
    pyHasKey metadata_unid_idx.namespaces_unid_idx (some unid)
  else if entity == "schemas" then
    pyHasKey metadata_unid_idx.schemas_unid_idx (some unid)
  else if entity == "systems" then
    pyHasKey metadata_unid_idx.systems_unid_idx (some unid)
  else if entity == "data_entities" then
    pyHasKey metadata_unid_idx.data_entities_unid_idx (some unid)
  else if entity == "pipelines" then
    pyHasKey metadata_unid_idx.pipelines_unid_idx (some unid)
  else false

/-- `validate.py` `config_keys_are_legal`, applied to the `config` field
of a `System`, `Data_entity` or `Pipeline`: `True` when the config is
falsy (`None` or the empty dict), else `False` iff some key starts with
a reserved prefix. -/
def config_keys_are_legal (config : Option PyDict) : Bool :=
  match config with
  | none => true
  | some d =>
      if d.isEmpty then true
      else d.all (fun kv =>
        !(pyStartsWith kv.1 "pl_" || pyStartsWith kv.1 "ent_"
            || pyStartsWith kv.1 "sys_"))

/-- A per-entity validation result: `report['valid']` and
`report['errors']`. -/
structure Report where
  valid : Bool
  errors : List String
deriving Repr, DecidableEq

/-- Error text listing the allowed values of an enum field, as built by
the source's accumulation loop (leading space before each value, a
trailing comma after each). `plural` is the word after `Valid` — the
source writes `Valid types are:` even for scope and velocity. -/
def enumErrMsg (value : String) (what : String) (label : String)
    (plural : String) (allowed : List String) : String :=
  allowed.foldl (fun m t => m ++ " " ++ t ++ ",")
    (value ++ " is not a valid " ++ what ++ " for " ++ label ++
      ". Valid " ++ plural ++ " are:")

/-! ## validate.py : validation of existing entities

The `TypeError` branches for a reference that is neither `int` nor
`str` are unreachable here because `Ref` has exactly those two forms. -/

/-- Existence check of a namespace reference shared by the validators:
the pair of the validity flag and the produced error messages. -/
def nsRefErrs (metadata_id_idx : IdIdx) (metadata_unid_idx : UnidIdx)
    (r : Ref) : List String :=
  match r with
  | .rid n =>
      if id_exists metadata_id_idx "namespaces" n then []
      else ["Referenced namespace id " ++ toString n ++ " does not exist"]
  | .runid s =>
      if unid_exists metadata_unid_idx "namespaces" s then []
      else ["Referenced namespace UNID " ++ s ++ " does not exist"]

/-- `validate.py` `validate_schema`: the referenced namespace exists and
the type is an allowed value; all errors are accumulated into one
report. -/
def validate_schema (schema : Schema) (metadata_id_idx : IdIdx)
    (metadata_unid_idx : UnidIdx) : Report :=
  let e1 := nsRefErrs metadata_id_idx metadata_unid_idx schema.nspace
  let e2 :=
    if SCHEMA_TYPES.contains schema.type then []
    else [enumErrMsg schema.type "type" "schemas" "types" SCHEMA_TYPES]
  { valid := e1.isEmpty && e2.isEmpty, errors := e1 ++ e2 }

/-- `validate.py` `validate_system` (the `metadata_obj` parameter is
accepted and unused, as in the source): namespace exists, type
allowed. -/
def validate_system (system : System) (metadata_obj : MDObjects)
    (metadata_id_idx : IdIdx) (metadata_unid_idx : UnidIdx) : Report :=
  let _ := metadata_obj
  let e1 := nsRefErrs metadata_id_idx metadata_unid_idx system.nspace
  let e2 :=
    if SYSTEM_TYPES.contains system.type then []
    else [enumErrMsg system.type "type" "systems" "types" SYSTEM_TYPES]
  { valid := e1.isEmpty && e2.isEmpty, errors := e1 ++ e2 }

/-- `validate.py` `validate_data_entity`: namespace, system and schema
references exist; type and interface are allowed values. -/
def validate_data_entity (data_entity : Data_entity)
    (metadata_obj : MDObjects) (metadata_id_idx : IdIdx)
    (metadata_unid_idx : UnidIdx) : Report :=
  let _ := metadata_obj
  let e1 := nsRefErrs metadata_id_idx metadata_unid_idx data_entity.nspace
  let e2 :=
    match data_entity.system with
    | .rid n =>
        if id_exists metadata_id_idx "systems" n then []
        else ["Referenced system id " ++ toString n ++ " does not exist"]
    | .runid s =>
        if unid_exists metadata_unid_idx "systems" s then []
        else ["Referenced system UNID " ++ s ++ " does not exist"]
  let e3 :=
    match data_entity.entity_schema with
    | .rid n =>
        if id_exists metadata_id_idx "schemas" n then []
        else ["Referenced schema id " ++ toString n ++ " does not exist"]
    | .runid s =>
        if unid_exists metadata_unid_idx "schemas" s then []
        else ["Referenced schema UNID " ++ s ++ " does not exist"]
  let e4 :=
    if DATA_ENTITY_ALLOWED_TYPES.contains data_entity.type then []
    else [enumErrMsg data_entity.type "type" "data_entities" "types"
            DATA_ENTITY_ALLOWED_TYPES]
  let e5 :=
    if DATA_ENTITY_ALLOWED_INTERFACES.contains data_entity.interface then []
    else [enumErrMsg data_entity.interface "interface" "data_entities"
            "interfaces" DATA_ENTITY_ALLOWED_INTERFACES]
  { valid := e1.isEmpty && e2.isEmpty && e3.isEmpty && e4.isEmpty && e5.isEmpty
    errors := e1 ++ e2 ++ e3 ++ e4 ++ e5 }

/-- Existence errors for one data-entity reference of a pipeline
instance side, with the source's message text. -/
def ioEntErrs (metadata_id_idx : IdIdx) (metadata_unid_idx : UnidIdx)
    (label : String) (r : Ref) : List String :=
  match r with
  | .rid n =>
      if id_exists metadata_id_idx "data_entities" n then []
      else [label ++ " entity " ++ toString n ++ " does not exist."]
  | .runid s =>
      if unid_exists metadata_unid_idx "data_entities" s then []
      else [label ++ " entity " ++ s ++ " does not exist."]

/-- Existence errors for a whole side (single or list-shaped) of a
pipeline instance. -/
def ioSideErrs (metadata_id_idx : IdIdx) (metadata_unid_idx : UnidIdx)
    (label : String) : IOSide → List String
  | .one r => ioEntErrs metadata_id_idx metadata_unid_idx label r
  | .many rs =>
      rs.foldl (fun acc r =>
        acc ++ ioEntErrs metadata_id_idx metadata_unid_idx label r) []

/-- `validate.py` `validate_pipeline`: namespace exists, every
input/output reference of every instance exists, type/scope/velocity
are allowed values. The branch for a UNID-style namespace reference
that does not exist evaluates the f-string
`f'Referenced namespace UNID {pl_unid} does not exist'` whose name
`pl_unid` is undefined in this function, so it raises `NameError`. -/
def validate_pipeline (pipeline : Pipeline) (metadata_obj : MDObjects)
    (metadata_id_idx : IdIdx) (metadata_unid_idx : UnidIdx) :
    Except PyErr Report :=
  let _ := metadata_obj
  do
  let e1 ←
    match pipeline.nspace with
    | .rid n =>
        pure (if id_exists metadata_id_idx "namespaces" n then ([] : List String)
          else ["Referenced namespace id " ++ toString n ++ " does not exist"])
    | .runid s =>
        if unid_exists metadata_unid_idx "namespaces" s then pure []
        else .error (.nameError "pl_unid")
  let e2 := pipeline.input_output.foldl (fun acc inst =>
    acc ++ ioSideErrs metadata_id_idx metadata_unid_idx "Input" inst.input
        ++ ioSideErrs metadata_id_idx metadata_unid_idx "Output" inst.output) []
  let e3 :=
    if PIPELINE_ALLOWED_TYPES.contains pipeline.type then []
    else [enumErrMsg pipeline.type "type" "pipelines" "types"
            PIPELINE_ALLOWED_TYPES]
  let e4 :=
    if PIPELINE_ALLOWED_SCOPES.contains pipeline.scope then []
    else [enumErrMsg pipeline.scope "scope" "pipelines" "types"
            PIPELINE_ALLOWED_SCOPES]
  let e5 :=
    if PIPELINE_ALLOWED_VELOCITY.contains pipeline.velocity then []
    else [enumErrMsg pipeline.velocity "velocity" "pipelines" "types"
            PIPELINE_ALLOWED_VELOCITY]
  .ok { valid := e1.isEmpty && e2.isEmpty && e3.isEmpty && e4.isEmpty
                   && e5.isEmpty
        errors := e1 ++ e2 ++ e3 ++ e4 ++ e5 }

/-! ## build.py : unid generation and unid indexing -/

/-- `build.py` `generate_unids`: derive and store the `unid` of every
object of every id index, returning the updated index together with the
`md_objects_with_unids` lists (the same objects, in index order). A
derivation failure (`KeyError` on a dangling ancestor) propagates. -/
def generate_unids (metadata_id_idx : IdIdx) :
    Except PyErr (IdIdx × MDObjects) := do
  let nss ← metadata_id_idx.namespaces_idx.mapM (fun p => do
    let u ← id_to_unid metadata_id_idx "namespaces" p.2.id
    pure (p.1, { p.2 with unid := some u }))
  let schs ← metadata_id_idx.schemas_idx.mapM (fun p => do
    let u ← id_to_unid metadata_id_idx "schemas" p.2.id
    pure (p.1, { p.2 with unid := some u }))
  let syss ← metadata_id_idx.systems_idx.mapM (fun p => do
    let u ← id_to_unid metadata_id_idx "systems" p.2.id
    pure (p.1, { p.2 with unid := some u }))
  let ents ← metadata_id_idx.data_entities_idx.mapM (fun p => do
    let u ← id_to_unid metadata_id_idx "data_entities" p.2.id
    pure (p.1, { p.2 with unid := some u }))
  let pls ← metadata_id_idx.pipelines_idx.mapM (fun p => do
    let u ← id_to_unid metadata_id_idx "pipelines" p.2.id
    pure (p.1, { p.2 with unid := some u }))
  pure
    ({ namespaces_idx := nss, schemas_idx := schs, systems_idx := syss
       data_entities_idx := ents, pipelines_idx := pls },
     { namespaces := nss.map (·.2), schemas := schs.map (·.2)
       systems := syss.map (·.2), data_entities := ents.map (·.2)
       pipelines := pls.map (·.2) })

/-- `build.py` `create_unid_indexes`: per type, a dict keyed by each
object's `unid` attribute. -/
def create_unid_indexes (metadata_unid : MDObjects) : UnidIdx :=
  { namespaces_unid_idx :=
      metadata_unid.namespaces.foldl (fun d ns => pyInsert d ns.unid ns) []
    schemas_unid_idx :=
      metadata_unid.schemas.foldl (fun d sch => pyInsert d sch.unid sch) []
    systems_unid_idx :=
      metadata_unid.systems.foldl (fun d sys => pyInsert d sys.unid sys) []
    data_entities_unid_idx :=
      metadata_unid.data_entities.foldl (fun d ent => pyInsert d ent.unid ent) []
    pipelines_unid_idx :=
      metadata_unid.pipelines.foldl (fun d pl => pyInsert d pl.unid pl) [] }

/-! ## build.py : unid references back to ids -/

/-- Resolve a UNID-shaped reference against one unid index
(`metadata_unid_idx['..._unid_idx'][s].id`); absence raises `KeyError`. -/
def unidRefToId (idx : List (Option String × α)) (getId : α → Nat)
    (r : Ref) : Except PyErr Ref :=
  match r with
  | .rid n => .ok (.rid n)
  | .runid s =>
      match pyGet? idx (some s) with
      | some o => .ok (.rid (getId o))
      | none => .error .keyError

/-- `build.py` `schema_unid_refs_to_ids`. -/
def schema_unid_refs_to_ids (metadata_unid_idx : UnidIdx) (schema : Schema) :
    Except PyErr Schema := do
  let r ← unidRefToId metadata_unid_idx.namespaces_unid_idx (·.id) schema.nspace
  pure { schema with nspace := r }

/-- `build.py` `system_unid_refs_to_ids`. -/
def system_unid_refs_to_ids (metadata_unid_idx : UnidIdx) (system : System) :
    Except PyErr System := do
  let r ← unidRefToId metadata_unid_idx.namespaces_unid_idx (·.id) system.nspace
  pure { system with nspace := r }

/-- `build.py` `data_entity_unid_refs_to_ids`: namespace, system and
schema references in that order. -/
def data_entity_unid_refs_to_ids (metadata_unid_idx : UnidIdx)
    (data_entity : Data_entity) : Except PyErr Data_entity := do
  let rn ← unidRefToId metadata_unid_idx.namespaces_unid_idx (·.id)
    data_entity.nspace
  let rs ← unidRefToId metadata_unid_idx.systems_unid_idx (·.id)
    data_entity.system
  let rsch ← unidRefToId metadata_unid_idx.schemas_unid_idx (·.id)
    data_entity.entity_schema
  pure { data_entity with nspace := rn, system := rs, entity_schema := rsch }

/-- Convert one side of an instance for `pipeline_unid_refs_to_ids`. -/
def ioSideUnidToId (metadata_unid_idx : UnidIdx) : IOSide →
    Except PyErr IOSide
  | .one r => do
      let r' ← unidRefToId metadata_unid_idx.data_entities_unid_idx (·.id) r
      pure (.one r')
  | .many rs => do
      let rs' ← rs.mapM
        (unidRefToId metadata_unid_idx.data_entities_unid_idx (·.id))
      pure (.many rs')

/-- `build.py` `pipeline_unid_refs_to_ids`: namespace plus both sides of
every instance. -/
def pipeline_unid_refs_to_ids (metadata_unid_idx : UnidIdx)
    (pipeline : Pipeline) : Except PyErr Pipeline := do
  let rn ← unidRefToId metadata_unid_idx.namespaces_unid_idx (·.id)
    pipeline.nspace
  let insts ← pipeline.input_output.mapM (fun inst => do
    let i ← ioSideUnidToId metadata_unid_idx inst.input
    let o ← ioSideUnidToId metadata_unid_idx inst.output
    pure { input := i, output := o : PInstance })
  pure { pipeline with nspace := rn, input_output := insts }

/-! ## validate.py : validation for new or edited entities -/

/-- `validate.py` `validate_new_namespace`: unique UNID (the candidate's
`name`) first, then unique id; both findings go into one report. -/
def validate_new_namespace (namespace_ : Namespace)
    (metadata_id_idx : IdIdx) (metadata_unid_idx : UnidIdx) : Report :=
  let e1 :=
    if unid_exists metadata_unid_idx "namespaces" namespace_.name then
      ["A namespace with name " ++ namespace_.name ++ " exists already"]
    else []
  let e2 :=
    if id_exists metadata_id_idx "namespaces" namespace_.id then
      ["A namespace with id " ++ toString namespace_.id ++ " exists already"]
    else []
  { valid := e1.isEmpty && e2.isEmpty, errors := e1 ++ e2 }

/-- `validate.py` `validate_new_schema`: run `validate_schema`; when it
already failed, return its report unchanged without the uniqueness
checks; else check unique id and unique UNID (`name.version`). -/
def validate_new_schema (schema : Schema) (metadata_id_idx : IdIdx)
    (metadata_unid_idx : UnidIdx) : Report :=
  let result := validate_schema schema metadata_id_idx metadata_unid_idx
  if ¬ result.valid then result
  else
    let e1 :=
      if id_exists metadata_id_idx "schemas" schema.id then
        ["A schema with id " ++ toString schema.id ++ " exists already"]
      else []
    let schema_unid := schema.name ++ "." ++ toString schema.version
    let e2 :=
      if unid_exists metadata_unid_idx "schemas" schema_unid then
        ["A schema with UNID " ++ schema_unid ++ " exists already"]
      else []
    { valid := e1.isEmpty && e2.isEmpty, errors := result.errors ++ e1 ++ e2 }

/-- `validate.py` `validate_new_system`: run `validate_system`; on
failure return its report unchanged; else check unique id, then derive
the candidate's UNID by converting its references to ids, appending it
to a scratch copy of `metadata_obj['systems']`, re-indexing by id and
calling `id_to_unid` on the scratch index, and check that UNID for
uniqueness. -/
def validate_new_system (system : System) (metadata_obj : MDObjects)
    (metadata_id_idx : IdIdx) (metadata_unid_idx : UnidIdx) :
    Except PyErr Report := do
  let result := validate_system system metadata_obj metadata_id_idx
    metadata_unid_idx
  if ¬ result.valid then pure result
  else do
    let e1 :=
      if id_exists metadata_id_idx "systems" system.id then
        ["A system with id " ++ toString system.id ++ " exists already"]
      else []
    let tmp_sys ← system_unid_refs_to_ids metadata_unid_idx system
    let tmp_obj := { metadata_obj with
      systems := metadata_obj.systems ++ [tmp_sys] }
    let tmp_id_idx := create_id_indexes tmp_obj
    let system_unid ← id_to_unid tmp_id_idx "systems" tmp_sys.id
    let e2 :=
      if unid_exists metadata_unid_idx "systems" system_unid then
        ["A system with UNID " ++ system_unid ++ " exists already"]
      else []
    pure { valid := e1.isEmpty && e2.isEmpty
           errors := result.errors ++ e1 ++ e2 }

/-- `validate.py` `validate_new_data_entity`: same scheme as
`validate_new_system`, with the scratch insert into
`metadata_obj['data_entities']`. -/
def validate_new_data_entity (data_entity : Data_entity)
    (metadata_obj : MDObjects) (metadata_id_idx : IdIdx)
    (metadata_unid_idx : UnidIdx) : Except PyErr Report := do
  let result := validate_data_entity data_entity metadata_obj metadata_id_idx
    metadata_unid_idx
  if ¬ result.valid then pure result
  else do
    let e1 :=
      if id_exists metadata_id_idx "data_entities" data_entity.id then
        ["A data_entity with id " ++ toString data_entity.id
          ++ " exists already"]
      else []
    let tmp_ent ← data_entity_unid_refs_to_ids metadata_unid_idx data_entity
    let tmp_obj := { metadata_obj with
      data_entities := metadata_obj.data_entities ++ [tmp_ent] }
    let tmp_id_idx := create_id_indexes tmp_obj
    let data_entity_unid ← id_to_unid tmp_id_idx "data_entities" data_entity.id
    let e2 :=
      if unid_exists metadata_unid_idx "data_entities" data_entity_unid then
        ["A data_entity with UNID " ++ data_entity_unid ++ " exists already"]
      else []
    pure { valid := e1.isEmpty && e2.isEmpty
           errors := result.errors ++ e1 ++ e2 }

/-- `validate.py` `validate_new_pipeline`: same scheme, with the scratch
insert into `metadata_obj['pipelines']`. -/
def validate_new_pipeline (pipeline : Pipeline) (metadata_obj : MDObjects)
    (metadata_id_idx : IdIdx) (metadata_unid_idx : UnidIdx) :
    Except PyErr Report := do
  let result ← validate_pipeline pipeline metadata_obj metadata_id_idx
    metadata_unid_idx
  if ¬ result.valid then pure result
  else do
    let e1 :=
      if id_exists metadata_id_idx "pipelines" pipeline.id then
        ["A pipeline with id " ++ toString pipeline.id ++ " exists already"]
      else []
    let tmp_pl ← pipeline_unid_refs_to_ids metadata_unid_idx pipeline
    let tmp_obj := { metadata_obj with
      pipelines := metadata_obj.pipelines ++ [tmp_pl] }
    let tmp_id_idx := create_id_indexes tmp_obj
    let pl_unid ← id_to_unid tmp_id_idx "pipelines" pipeline.id
    let e2 :=
      if unid_exists metadata_unid_idx "pipelines" pl_unid then
        ["A pipeline with UNID " ++ pl_unid ++ " exists already"]
      else []
    pure { valid := e1.isEmpty && e2.isEmpty
           errors := result.errors ++ e1 ++ e2 }

/-! ## validate.py : dependency analysis (pre-delete gate) -/

/-- Any one of the five entity objects, for heterogeneous dependants
lists. -/
inductive AnyEntity where
  | ns : Namespace → AnyEntity
  | sch : Schema → AnyEntity
  | sys : System → AnyEntity
  | ent : Data_entity → AnyEntity
  | pl : Pipeline → AnyEntity
deriving Repr, BEq

/-- A dependants report: `has_dependants` and the list of dependants. -/
structure DepReport where
  has_dependants : Bool
  dependants : List AnyEntity
deriving Repr, BEq

/-- Python `ent.namespace == namespace.id`: true only for an id-shaped
reference equal to the id (an `int == str` comparison is `False`). -/
def refEqId (r : Ref) (id : Nat) : Bool :=
  match r with
  | .rid n => n == id
  | .runid _ => false

/-- One loop step of the dependants scans: when the object references
the target, set `has_dependants` and append the object. -/
def depStep (r : DepReport) (hit : Bool) (e : AnyEntity) : DepReport :=
  if hit then { has_dependants := true, dependants := r.dependants ++ [e] }
  else r

/-- `validate.py` `get_namespace_dependants`: scan every collection other
than `namespaces` in dict order (schemas, systems, data_entities,
pipelines) and collect each object whose `namespace` field equals the
namespace's id. -/
def get_namespace_dependants (namespace_ : Namespace)
    (metadata_obj : MDObjects) : DepReport :=
  let r0 : DepReport := { has_dependants := false, dependants := [] }
  let r1 := metadata_obj.schemas.foldl
    (fun r e => depStep r (refEqId e.nspace namespace_.id) (.sch e)) r0
  let r2 := metadata_obj.systems.foldl
    (fun r e => depStep r (refEqId e.nspace namespace_.id) (.sys e)) r1
  let r3 := metadata_obj.data_entities.foldl
    (fun r e => depStep r (refEqId e.nspace namespace_.id) (.ent e)) r2
  metadata_obj.pipelines.foldl
    (fun r e => depStep r (refEqId e.nspace namespace_.id) (.pl e)) r3

/-- `validate.py` `get_schema_dependants`: data entities whose
`entity_schema` equals the schema's id. -/
def get_schema_dependants (schema : Schema) (metadata_obj : MDObjects) :
    DepReport :=
  metadata_obj.data_entities.foldl
    (fun r e => depStep r (refEqId e.entity_schema schema.id) (.ent e))
    { has_dependants := false, dependants := [] }

/-- `validate.py` `get_system_dependants`: data entities whose `system`
equals the system's id. -/
def get_system_dependants (system : System) (metadata_obj : MDObjects) :
    DepReport :=
  metadata_obj.data_entities.foldl
    (fun r e => depStep r (refEqId e.system system.id) (.ent e))
    { has_dependants := false, dependants := [] }

/-- One append of the pipeline per reference of the side equal to the
entity id (a list-shaped side appends once per matching element). -/
def sideAppends (side : IOSide) (id : Nat) (pl : Pipeline) : List Pipeline :=
  match side with
  | .one r => if refEqId r id then [pl] else []
  | .many rs => rs.foldl (fun acc r =>
      acc ++ (if refEqId r id then [pl] else [])) []

/-- `validate.py` `get_data_entity_dependants`: pipelines referencing the
data entity from either side of any instance; a pipeline already in the
result list is skipped before its instances are examined, otherwise it
is appended once per matching reference. -/
def get_data_entity_dependants (data_entity : Data_entity)
    (metadata_obj : MDObjects) : DepReport :=
  let deps := metadata_obj.pipelines.foldl (fun acc pl =>
    if acc.contains (AnyEntity.pl pl) then acc
    else acc ++ (pl.input_output.foldl (fun a inst =>
      a ++ sideAppends inst.input data_entity.id pl
        ++ sideAppends inst.output data_entity.id pl) []).map AnyEntity.pl) []
  { has_dependants := ¬ deps.isEmpty, dependants := deps }

/-! ## build.py : integration (denormalisation)

`integrate_pipelines` is embedded at the configuration used by its only
callers (`build_from_json` / `build_from_objects`): `flatten_namespaces
= True` (namespace references become the namespace's `name` string) and
`flatten_schemas = False` (schema references become the full schema
object). The integrated entities are separate structures because the
reference fields change type. -/

/-- An integrated schema: `namespace` replaced by the namespace name. -/
structure ISchema where
  id : Nat
  unid : Option String
  nspace : String
  name : String
  description : Option String
  type : String
  version : Nat
  entity_schema : Option PyVal
  created : Nat
  modified : Nat
deriving Repr, BEq

/-- An integrated system: `namespace` replaced by the namespace name. -/
structure ISystem where
  id : Nat
  unid : Option String
  nspace : String
  name : String
  description : Option String
  type : String
  config : Option PyDict
  created : Nat
  modified : Nat
deriving Repr, BEq

/-- An integrated data entity: namespace name, embedded system and
embedded schema object. -/
structure IEntity where
  id : Nat
  unid : Option String
  nspace : String
  system : ISystem
  name : String
  description : Option String
  type : String
  interface : String
  entity_schema : ISchema
  checks : Option (List PyVal)
  config : Option PyDict
  created : Nat
  modified : Nat
deriving Repr, BEq

/-- One integrated instance side: embedded entity or list of entities,
preserving the singular/list shape. -/
inductive ISide where
  | one : IEntity → ISide
  | many : List IEntity → ISide
deriving Repr, BEq

/-- One integrated `{input, output}` pair. -/
structure IInstance where
  input : ISide
  output : ISide
deriving Repr, BEq

/-- An integrated pipeline. -/
structure IPipeline where
  id : Nat
  unid : Option String
  nspace : String
  name : String
  description : Option String
  enabled : Bool
  version : Nat
  scope : String
  type : String
  velocity : String
  input_output : List IInstance
  config : Option PyDict
  created : Nat
  modified : Nat
deriving Repr, BEq

/-- Namespace name of a reference, as `integrate_pipelines` reads
`ns_byid[ref].name` (a UNID-string reference misses the integer-keyed
dict: `KeyError`). -/
def nsNameOfRef (metadata_id_idx : IdIdx) : Ref → Except PyErr String
  | .rid n =>
      match pyGet? metadata_id_idx.namespaces_idx n with
      | some ns => .ok ns.name
      | none => .error .keyError
  | .runid _ => .error .keyError

/-- `build.py` `integrate_pipelines`: replace reference ids by objects,
processing schemas, then systems, then data entities (which embed the
already-integrated systems and schemas), then pipelines (which embed the
already-integrated data entities element-wise, preserving shape). -/
def integrate_pipelines (metadata_id_idx : IdIdx) :
    Except PyErr (List IPipeline) := do
  let ischemas ← metadata_id_idx.schemas_idx.mapM (fun p => do
    let nsname ← nsNameOfRef metadata_id_idx p.2.nspace
    pure (p.1,
      { id := p.2.id, unid := p.2.unid, nspace := nsname, name := p.2.name
        description := p.2.description, type := p.2.type
        version := p.2.version, entity_schema := p.2.entity_schema
        created := p.2.created, modified := p.2.modified : ISchema }))
  let isystems ← metadata_id_idx.systems_idx.mapM (fun p => do
    let nsname ← nsNameOfRef metadata_id_idx p.2.nspace
    pure (p.1,
      { id := p.2.id, unid := p.2.unid, nspace := nsname, name := p.2.name
        description := p.2.description, type := p.2.type
        config := p.2.config, created := p.2.created
        modified := p.2.modified : ISystem }))
  let ientities ← metadata_id_idx.data_entities_idx.mapM (fun p => do
    let nsname ← nsNameOfRef metadata_id_idx p.2.nspace
    let sys ←
      match p.2.system with
      | .rid n =>
          match pyGet? isystems n with
          | some s => Except.ok s
          | none => Except.error PyErr.keyError
      | .runid _ => Except.error PyErr.keyError
    let sch ←
      match p.2.entity_schema with
      | .rid n =>
          match pyGet? ischemas n with
          | some s => Except.ok s
          | none => Except.error PyErr.keyError
      | .runid _ => Except.error PyErr.keyError
    pure (p.1,
      { id := p.2.id, unid := p.2.unid, nspace := nsname, system := sys
        name := p.2.name, description := p.2.description, type := p.2.type
        interface := p.2.interface, entity_schema := sch
        checks := p.2.checks, config := p.2.config
        created := p.2.created, modified := p.2.modified : IEntity }))
  let lookupEnt : Ref → Except PyErr IEntity := fun r =>
    match r with
    | .rid n =>
        match pyGet? ientities n with
        | some e => Except.ok e
        | none => Except.error PyErr.keyError
    | .runid _ => Except.error PyErr.keyError
  let integrateSide : IOSide → Except PyErr ISide := fun side =>
    match side with
    | .one r => do
        let e ← lookupEnt r
        pure (ISide.one e)
    | .many rs => do
        let es ← rs.mapM lookupEnt
        pure (ISide.many es)
  let ipipelines ← metadata_id_idx.pipelines_idx.mapM (fun p => do
    let nsname ← nsNameOfRef metadata_id_idx p.2.nspace
    let insts ← p.2.input_output.mapM (fun inst => do
      let i ← integrateSide inst.input
      let o ← integrateSide inst.output
      pure { input := i, output := o : IInstance })
    pure
      { id := p.2.id, unid := p.2.unid, nspace := nsname, name := p.2.name
        description := p.2.description, enabled := p.2.enabled
        version := p.2.version, scope := p.2.scope, type := p.2.type
        velocity := p.2.velocity, input_output := insts
        config := p.2.config, created := p.2.created
        modified := p.2.modified : IPipeline })
  pure ipipelines

/-! ## build.py : flattening -/

/-- Rendering of an optional string attribute as a Python value. -/
def optStrVal : Option String → PyVal
  | some s => .vStr s
  | none => .vNone

/-- Rendering of an optional config/body value. -/
def optVal : Option PyVal → PyVal
  | some v => v
  | none => .vNone

/-- `model_dump()` of an integrated schema object: a dict of all its
fields in declaration order. -/
def schemaModelDump (sch : ISchema) : PyDict :=
  [("id", .vInt sch.id), ("unid", optStrVal sch.unid),
   ("namespace", .vStr sch.nspace), ("name", .vStr sch.name),
   ("description", optStrVal sch.description), ("type", .vStr sch.type),
   ("version", .vInt sch.version),
   ("entity_schema", optVal sch.entity_schema),
   ("created", .vInt sch.created), ("modified", .vInt sch.modified)]

/-- The flat record of one integrated entity inside a flattened
instance: `ent_`-prefixed fields in `FLAT_ENT_KEYS` order (the schema
object inlined as a plain dict), `sys_`-prefixed fields of the owning
system in `FLAT_SYS_KEYS` order, then the entity's config and the
system's config merged in unprefixed. -/
def flattenEntity (e : IEntity) : PyDict :=
  let base : PyDict :=
    [("ent_id", .vInt e.id), ("ent_unid", optStrVal e.unid),
     ("ent_namespace", .vStr e.nspace), ("ent_name", .vStr e.name),
     ("ent_type", .vStr e.type), ("ent_interface", .vStr e.interface),
     ("ent_entity_schema", .vDict (schemaModelDump e.entity_schema)),
     ("sys_id", .vInt e.system.id), ("sys_unid", optStrVal e.system.unid),
     ("sys_namespace", .vStr e.system.nspace),
     ("sys_name", .vStr e.system.name), ("sys_type", .vStr e.system.type)]
  let withEnt :=
    match e.config with
    | some d => pyUpdate base d
    | none => base
  match e.system.config with
  | some d => pyUpdate withEnt d
  | none => withEnt

/-- The body of `build.py` `flatten_instance` for one instance (the
source indexes `pl.input_output[instance_nr]`; this takes the instance
itself): `pl_`-prefixed pipeline fields in `FLAT_PL_KEYS` order, the
pipeline's config merged in unprefixed, then the flattened input side
under `i` and output side under `o`, each a record or list of records
matching the side's shape. -/
def flattenInstCore (pl : IPipeline) (inst : IInstance) : PyDict :=
  let base : PyDict :=
    [("pl_id", .vInt pl.id), ("pl_unid", optStrVal pl.unid),
     ("pl_namespace", .vStr pl.nspace), ("pl_name", .vStr pl.name),
     ("pl_type", .vStr pl.type), ("pl_version", .vInt pl.version),
     ("pl_scope", .vStr pl.scope), ("pl_velocity", .vStr pl.velocity)]
  let base :=
    match pl.config with
    | some d => pyUpdate base d
    | none => base
  let iVal : PyVal :=
    match inst.input with
    | .one e => .vDict (flattenEntity e)
    | .many es => .vList (es.map (fun e => .vDict (flattenEntity e)))
  let oVal : PyVal :=
    match inst.output with
    | .one e => .vDict (flattenEntity e)
    | .many es => .vList (es.map (fun e => .vDict (flattenEntity e)))
  pyInsert (pyInsert base "i" iVal) "o" oVal

/-- `build.py` `flatten_instance` with `objectify_output=False` (the
configuration used when building `dag_config`): flatten the instance at
the given list index; an out-of-range index raises `IndexError`
(modelled as a `valueError`). The `objectify_output=True` variant only
re-wraps the same record in `SimpleNamespace`s for dot access. -/
def flatten_instance (pipeline : IPipeline) (instance_nr : Nat) :
    Except PyErr PyDict :=
  match pipeline.input_output.get? instance_nr with
  | some inst => .ok (flattenInstCore pipeline inst)
  | none => .error (.valueError "IndexError")

/-- Python `s[:s.rfind('.')]` needs the index of the last `'.'`. -/
def lastDotIdx (s : String) : Option Nat :=
  match s.data.reverse.findIdx? (fun c => c == '.') with
  | some j => some (s.data.length - 1 - j)
  | none => none

/-- Python `s[:s.rfind('.')]`: everything before the last dot; when
there is no dot, `rfind` returns `-1` and the slice drops the last
character. -/
def pyStripVersion (s : String) : String :=
  match lastDotIdx s with
  | some i => ⟨s.data.take i⟩
  | none => ⟨s.data.take (s.data.length - 1)⟩

/-- The consumption-ready `dag_config` form: pipeline identifier to the
ordered list of flattened instance records. -/
abbrev DagConf := List (String × List PyDict)

/-- One step of the `dag_config` accumulation: flatten every instance of
the pipeline in order, then assign the list under the pipeline's unid
with its trailing version segment stripped (slicing a `None` unid
raises `TypeError`). -/
def dagStep (conf : DagConf) (pl : IPipeline) : Except PyErr DagConf :=
  let instance_list := pl.input_output.map (flattenInstCore pl)
  match pl.unid with
  | some u => .ok (pyInsert conf (pyStripVersion u) instance_list)
  | none => .error (.typeError "argument of type NoneType is not sliceable")

/-- `build.py` `integrated_to_dag_config`: keep only the pipelines with
`enabled = true`, flatten every instance of each (via
`flatten_instance` at each index, `objectify_output=False`), and key
the per-pipeline instance lists by `pl.unid[:pl.unid.rfind('.')]`, a
later pipeline overwriting an earlier one with the same key. -/
def integrated_to_dag_config (integrated : List IPipeline) :
    Except PyErr DagConf :=
  let enabled_pipelines := integrated.filter (fun pl => pl.enabled)
  enabled_pipelines.foldlM dagStep []

/-! ## build.py : object/json round trips -/

/-- `build.py` `metadata_objects_to_json`: unset each object's `unid`
and `model_dump` it. The json records are modelled by the entity values
themselves (model_dump is a faithful rendering), so this is the
unid-clearing map. -/
def metadata_objects_to_json (md_obj : MDObjects) : MDObjects :=
  { namespaces := md_obj.namespaces.map (fun o => { o with unid := none })
    schemas := md_obj.schemas.map (fun o => { o with unid := none })
    systems := md_obj.systems.map (fun o => { o with unid := none })
    data_entities := md_obj.data_entities.map (fun o => { o with unid := none })
    pipelines := md_obj.pipelines.map (fun o => { o with unid := none }) }

/-- `build.py` `objects_from_id_index`: the values of each id index, in
dict order. -/
def objects_from_id_index (metadata_id_idx : IdIdx) : MDObjects :=
  { namespaces := metadata_id_idx.namespaces_idx.map (·.2)
    schemas := metadata_id_idx.schemas_idx.map (·.2)
    systems := metadata_id_idx.systems_idx.map (·.2)
    data_entities := metadata_id_idx.data_entities_idx.map (·.2)
    pipelines := metadata_id_idx.pipelines_idx.map (·.2) }

/-- `build.py` `objects_from_unid_index`: the values of each unid index,
in dict order. -/
def objects_from_unid_index (metadata_unid_idx : UnidIdx) : MDObjects :=
  { namespaces := metadata_unid_idx.namespaces_unid_idx.map (·.2)
    schemas := metadata_unid_idx.schemas_unid_idx.map (·.2)
    systems := metadata_unid_idx.systems_unid_idx.map (·.2)
    data_entities := metadata_unid_idx.data_entities_unid_idx.map (·.2)
    pipelines := metadata_unid_idx.pipelines_unid_idx.map (·.2) }

/-- `build.py` `unid_refs_to_ids`: dispatch on the object's type; a
`Namespace` falls through unchanged. -/
def unid_refs_to_ids (metadata_unid_idx : UnidIdx) (obj : AnyEntity) :
    Except PyErr AnyEntity :=
  match obj with
  | .ns n => .ok (.ns n)
  | .sch s => (schema_unid_refs_to_ids metadata_unid_idx s).map .sch
  | .sys s => (system_unid_refs_to_ids metadata_unid_idx s).map .sys
  | .ent e => (data_entity_unid_refs_to_ids metadata_unid_idx e).map .ent
  | .pl p => (pipeline_unid_refs_to_ids metadata_unid_idx p).map .pl

/-! ## manage.py : MetadataStructure -/

/-- The report of `MetadataStructure.validate`: overall validity plus
one per-object result list per validated entity type. The wall-clock
`last_validated` stamp is omitted: it influences no checked
observable. -/
structure GraphReport where
  valid : Bool
  schemas : List Report
  systems : List Report
  data_entities : List Report
  pipelines : List Report
deriving Repr, DecidableEq

/-- `manage.py` `MetadataStructure.validate`: run the per-entity
validators over every schema, system, data entity and pipeline of
`md_objects` against `by_id`/`by_unid`, collecting every per-object
report; overall `valid` is true iff every report is. -/
def validateStructure (md_objects : MDObjects) (by_id : IdIdx)
    (by_unid : UnidIdx) : Except PyErr GraphReport := do
  let schemaReports := md_objects.schemas.map
    (fun sch => validate_schema sch by_id by_unid)
  let systemReports := md_objects.systems.map
    (fun sys => validate_system sys md_objects by_id by_unid)
  let entReports := md_objects.data_entities.map
    (fun ent => validate_data_entity ent md_objects by_id by_unid)
  let plReports ← md_objects.pipelines.mapM
    (fun pl => validate_pipeline pl md_objects by_id by_unid)
  pure
    { valid := schemaReports.all (·.valid) && systemReports.all (·.valid)
        && entReports.all (·.valid) && plReports.all (·.valid)
      schemas := schemaReports, systems := systemReports
      data_entities := entReports, pipelines := plReports }

/-- `manage.py` `MetadataStructure`: the in-memory representations of
one metadata graph. The pandas `view` is omitted (excluded presentation
layer). `dag_config` is set by `build_from_json` and left untouched by
`build_from_objects`, exactly as in the source. -/
structure MetadataStructure where
  md_json : MDObjects
  md_objects : MDObjects
  md_obj_with_unids : MDObjects
  by_id : IdIdx
  by_unid : UnidIdx
  integrated : List IPipeline
  dag_config : DagConf
  valid : Bool
  report : GraphReport
deriving Repr

/-- `manage.py` `MetadataStructure.build_from_objects`: rebuild
`md_json`, the id index, the unids, the unid index, the integrated
view and the validation report from `md_objects`; `dag_config` is not
recomputed. A `KeyError`/`NameError` raised by a build step
propagates. -/
def build_from_objects (self : MetadataStructure) :
    Except PyErr MetadataStructure := do
  let md_json := metadata_objects_to_json self.md_objects
  let by_id0 := create_id_indexes self.md_objects
  let (by_id, md_obj_with_unids) ← generate_unids by_id0
  let by_unid := create_unid_indexes md_obj_with_unids
  let integrated ← integrate_pipelines by_id
  let report ← validateStructure self.md_objects by_id by_unid
  pure { self with
    md_json := md_json, md_obj_with_unids := md_obj_with_unids
    by_id := by_id, by_unid := by_unid, integrated := integrated
    valid := report.valid, report := report }

/-! ## manage.py : MetadataManager

Only the transactional core is embedded: `workspace` (the committed
graph) and `cache` (the staged copy). The storage locations, `current`
mirror and interactive printing belong to the excluded storage/UI
boundaries; the user's y/n confirmation inside `add_new_entity` is the
`choice` parameter. -/

/-- The transactional state of `manage.py` `MetadataManager`. -/
structure MetadataManager where
  workspace : MetadataStructure
  cache : Option MetadataStructure
deriving Repr

/-- A mutating operation's outcome: a returned validation report, a
returned dependants report, `True`, `False`, `None`, or a raised
exception. -/
inductive OpReturn where
  | rReport : Report → OpReturn
  | rDepReport : DepReport → OpReturn
  | rTrue : OpReturn
  | rFalse : OpReturn
  | rNone : OpReturn
  | rRaise : PyErr → OpReturn
deriving Repr

/-- Shared commit step of the three mutations: rebuild the staged
structure; on a valid rebuild commit it to `workspace` and clear
`cache` (returning `True`), on an invalid rebuild leave `workspace`
untouched with the failed structure in `cache` (returning `False`); a
raised build exception also leaves `workspace` untouched. -/
def stagedRebuildCommit (mm : MetadataManager) (staged : MetadataStructure) :
    OpReturn × MetadataManager :=
  match build_from_objects staged with
  | .error e => (.rRaise e, { mm with cache := some staged })
  | .ok cb =>
      if cb.valid then (.rTrue, { workspace := cb, cache := none })
      else (.rFalse, { mm with cache := some cb })

/-- Insert an element into a key-sorted list before the first element
of greater-or-equal key. Combined with the right-fold below this is the
classic stable insertion sort: an element is placed before every
equal-keyed element that came later in the input. -/
def insertSortedBy (key : α → Nat) (x : α) : List α → List α
  | [] => [x]
  | y :: t => if key x ≤ key y then x :: y :: t else y :: insertSortedBy key x t

/-- Stable sort by key (the result of Python's stable
`list.sort(key=...)`), as structural insertion sort. -/
def sortByKey (key : α → Nat) (l : List α) : List α :=
  l.foldr (insertSortedBy key) []

/-- Append the new entity to its collection and sort that collection by
id (Python's stable `list.sort(key=lambda x: x.id)`). -/
def addToObjects (md : MDObjects) (entity : AnyEntity) : MDObjects :=
  match entity with
  | .ns n => { md with
      namespaces := sortByKey (fun a => a.id) (md.namespaces ++ [n]) }
  | .sch s => { md with
      schemas := sortByKey (fun a => a.id) (md.schemas ++ [s]) }
  | .sys s => { md with
      systems := sortByKey (fun a => a.id) (md.systems ++ [s]) }
  | .ent e => { md with
      data_entities := sortByKey (fun a => a.id) (md.data_entities ++ [e]) }
  | .pl p => { md with
      pipelines := sortByKey (fun a => a.id) (md.pipelines ++ [p]) }

/-- The validator dispatch at the top of `add_new_entity`: choose the
`validate_new_*` function by the entity's runtime type. -/
def validateNewDispatch (ws : MetadataStructure) (entity : AnyEntity) :
    Except PyErr Report :=
  match entity with
  | .ns n => .ok (validate_new_namespace n ws.by_id ws.by_unid)
  | .sch s => .ok (validate_new_schema s ws.by_id ws.by_unid)
  | .sys s => validate_new_system s ws.md_objects ws.by_id ws.by_unid
  | .ent e => validate_new_data_entity e ws.md_objects ws.by_id ws.by_unid
  | .pl p => validate_new_pipeline p ws.md_objects ws.by_id ws.by_unid

/-- `manage.py` `MetadataManager.add_new_entity`: validate the new
entity against the workspace; on an invalid report return it. On a
valid report the user decides (`choice`); on `n` return `False`. On
`y`, normalise the entity's references to ids, stage a copy of the
workspace with the entity appended to its (re-sorted) collection, and
run the staged rebuild-and-commit. -/
def add_new_entity (mm : MetadataManager) (entity : AnyEntity)
    (choice : Bool) : OpReturn × MetadataManager :=
  let ws := mm.workspace
  match validateNewDispatch ws entity with
  | .error e => (.rRaise e, mm)
  | .ok result =>
      if ¬ result.valid then (.rReport result, mm)
      else if ¬ choice then (.rFalse, mm)
      else
        match unid_refs_to_ids ws.by_unid entity with
        | .error e => (.rRaise e, mm)
        | .ok entity' =>
            let staged := { ws with md_objects := addToObjects ws.md_objects entity' }
            stagedRebuildCommit mm staged

/-- Stamp `modified` and unset `unid` on the incoming entity, as
`update_entity` does before applying the replacement. -/
def stampForUpdate (entity : AnyEntity) (now : Nat) : AnyEntity :=
  match entity with
  | .ns n => .ns { n with modified := now, unid := none }
  | .sch s => .sch { s with modified := now, unid := none }
  | .sys s => .sys { s with modified := now, unid := none }
  | .ent e => .ent { e with modified := now, unid := none }
  | .pl p => .pl { p with modified := now, unid := none }

/-- Replace-by-id in the staged id index; raises `ValueError` when the
id is not present. -/
def updateInIdIdx (by_id : IdIdx) (entity : AnyEntity) :
    Except PyErr IdIdx :=
  match entity with
  | .ns n =>
      if pyHasKey by_id.namespaces_idx n.id then
        .ok { by_id with namespaces_idx := pyInsert by_id.namespaces_idx n.id n }
      else .error (.valueError
        ("Namespace with id " ++ toString n.id ++ " not found in indexes"))
  | .sch s =>
      if pyHasKey by_id.schemas_idx s.id then
        .ok { by_id with schemas_idx := pyInsert by_id.schemas_idx s.id s }
      else .error (.valueError
        ("Schema with id " ++ toString s.id ++ " not found in indexes"))
  | .sys s =>
      if pyHasKey by_id.systems_idx s.id then
        .ok { by_id with systems_idx := pyInsert by_id.systems_idx s.id s }
      else .error (.valueError
        ("System with id " ++ toString s.id ++ " not found in indexes"))
  | .ent e =>
      if pyHasKey by_id.data_entities_idx e.id then
        .ok { by_id with
          data_entities_idx := pyInsert by_id.data_entities_idx e.id e }
      else .error (.valueError
        ("Data_entity with id " ++ toString e.id ++ " not found in indexes"))
  | .pl p =>
      if pyHasKey by_id.pipelines_idx p.id then
        .ok { by_id with pipelines_idx := pyInsert by_id.pipelines_idx p.id p }
      else .error (.valueError
        ("Pipeline with id " ++ toString p.id ++ " not found in indexes"))

/-- `manage.py` `MetadataManager.update_entity` (returns `None` on both
the committed and the aborted path): stage a copy of the workspace,
normalise the incoming entity's references, stamp `modified` (the
`now` parameter stands for `pendulum.now`), unset its `unid`, replace
it by id in the staged id index (raising `ValueError` for an unknown
id), recreate the staged `md_objects` from that index, rebuild, and
commit only a valid rebuild. -/
def update_entity (mm : MetadataManager) (entity : AnyEntity) (now : Nat) :
    OpReturn × MetadataManager :=
  let ws := mm.workspace
  match unid_refs_to_ids ws.by_unid entity with
  | .error e => (.rRaise e, { mm with cache := some ws })
  | .ok entity1 =>
      let entity2 := stampForUpdate entity1 now
      match updateInIdIdx ws.by_id entity2 with
      | .error e => (.rRaise e, { mm with cache := some ws })
      | .ok by_id' =>
          let staged := { ws with
            by_id := by_id'
            md_objects := objects_from_id_index by_id' }
          match stagedRebuildCommit mm staged with
          | (.rTrue, mm') => (.rNone, mm')
          | (.rFalse, mm') => (.rNone, mm')
          | other => other

/-- The staged structure of `delete_entity`: the workspace with the
unid removed from the staged unid index of the given collection and
`md_objects` recreated from the unid indexes. -/
def deleteStagedStruct (ws : MetadataStructure) (entity_type : String)
    (unid : String) : MetadataStructure :=
  let by_unid' :=
    if entity_type == "namespaces" then
      { ws.by_unid with
          namespaces_unid_idx := pyRemove ws.by_unid.namespaces_unid_idx (some unid) }
    else if entity_type == "schemas" then
      { ws.by_unid with
          schemas_unid_idx := pyRemove ws.by_unid.schemas_unid_idx (some unid) }
    else if entity_type == "systems" then
      { ws.by_unid with
          systems_unid_idx := pyRemove ws.by_unid.systems_unid_idx (some unid) }
    else if entity_type == "data_entities" then
      { ws.by_unid with
          data_entities_unid_idx := pyRemove ws.by_unid.data_entities_unid_idx (some unid) }
    else
      { ws.by_unid with
          pipelines_unid_idx := pyRemove ws.by_unid.pipelines_unid_idx (some unid) }
  { ws with
    by_unid := by_unid'
    md_objects := objects_from_unid_index by_unid' }

/-- The staged part of `delete_entity` after the dependants gate:
rebuild the staged structure and commit only a valid rebuild. -/
def deleteStaged (mm : MetadataManager) (entity_type : String)
    (unid : String) : OpReturn × MetadataManager :=
  stagedRebuildCommit mm (deleteStagedStruct mm.workspace entity_type unid)

/-- `manage.py` `MetadataManager.delete_entity`: reject unknown entity
types (`ValueError`; the listed type `dag_config` has no unid index, so
it raises `KeyError` at the membership test) and unknown unids
(`ValueError`). For every type except `pipelines`, compute the
dependants report and refuse the deletion by returning that report
whenever it is non-empty; otherwise (and always for pipelines) proceed
to the staged deletion. -/
def delete_entity (mm : MetadataManager) (entity_type : String)
    (unid : String) : OpReturn × MetadataManager :=
  let ws := mm.workspace
  if ¬ ENTITIES.contains entity_type then
    (.rRaise (.valueError (entity_type ++ " is not a valid entity type.")), mm)
  else if entity_type == "dag_config" then (.rRaise .keyError, mm)
  else if entity_type == "namespaces" then
    match pyGet? ws.by_unid.namespaces_unid_idx (some unid) with
    | none => (.rRaise (.valueError
        ("There are no " ++ entity_type ++ " with unid " ++ unid)), mm)
    | some entity =>
        let dep_report := get_namespace_dependants entity ws.md_objects
        if dep_report.has_dependants then (.rDepReport dep_report, mm)
        else deleteStaged mm entity_type unid
  else if entity_type == "schemas" then
    match pyGet? ws.by_unid.schemas_unid_idx (some unid) with
    | none => (.rRaise (.valueError
        ("There are no " ++ entity_type ++ " with unid " ++ unid)), mm)
    | some entity =>
        let dep_report := get_schema_dependants entity ws.md_objects
        if dep_report.has_dependants then (.rDepReport dep_report, mm)
        else deleteStaged mm entity_type unid
  else if entity_type == "systems" then
    match pyGet? ws.by_unid.systems_unid_idx (some unid) with
    | none => (.rRaise (.valueError
        ("There are no " ++ entity_type ++ " with unid " ++ unid)), mm)
    | some entity =>
        let dep_report := get_system_dependants entity ws.md_objects
        if dep_report.has_dependants then (.rDepReport dep_report, mm)
        else deleteStaged mm entity_type unid
  else if entity_type == "data_entities" then
    match pyGet? ws.by_unid.data_entities_unid_idx (some unid) with
    | none => (.rRaise (.valueError
        ("There are no " ++ entity_type ++ " with unid " ++ unid)), mm)
    | some entity =>
        let dep_report := get_data_entity_dependants entity ws.md_objects
        if dep_report.has_dependants then (.rDepReport dep_report, mm)
        else deleteStaged mm entity_type unid
  else
    match pyGet? ws.by_unid.pipelines_unid_idx (some unid) with
    | none => (.rRaise (.valueError
        ("There are no " ++ entity_type ++ " with unid " ++ unid)), mm)
    | some _ => deleteStaged mm entity_type unid

/-! ## build.py : storage-facing readers and writers -/

/-- `build.py` `read_metadata`, iteration over the requested entity
types: an unknown type raises `ValueError`; then the membership test
`entity not in exclude_entities` raises `TypeError` when
`exclude_entities` is `None` (its default); an excluded type is
skipped, any other is read through `storage_reader`. -/
def read_metadata_go (storage_reader : String → String → List PyVal)
    (location : String) (exclude_entities : Option (List String)) :
    List String → List (String × List PyVal) →
    Except PyErr (List (String × List PyVal))
  | [], acc => .ok acc
  | entity :: rest, acc =>
      if ¬ ENTITIES.contains entity then
        .error (.valueError (entity ++ " is not a valid metadata entity."))
      else
        match exclude_entities with
        | none => .error (.typeError
            "argument of type NoneType is not iterable")
        | some excl =>
            if excl.contains entity then
              read_metadata_go storage_reader location exclude_entities rest acc
            else
              read_metadata_go storage_reader location exclude_entities rest
                (pyInsert acc entity (storage_reader location entity))

/-- `build.py` `read_metadata`: defaulting a falsy `md_entities`
(`None` or the empty list) to `ENTITIES`, then the reading loop. -/
def read_metadata (storage_reader : String → String → List PyVal)
    (location : String) (md_entities : Option (List String))
    (exclude_entities : Option (List String)) :
    Except PyErr (List (String × List PyVal)) :=
  let md_entities' :=
    match md_entities with
    | none => ENTITIES
    | some [] => ENTITIES
    | some l => l
  read_metadata_go storage_reader location exclude_entities md_entities' []

/-- The local names bound in the body of `build.py` `write_dag_config`
when its second statement runs: the three parameters and `ent_type`. -/
def write_dag_config_locals : List String :=
  ["storage_writer", "location", "dag_config", "ent_type"]

/-- The module-level names of `build.py` (its imports and function
definitions), against which a name that is not local is resolved;
`metadata_obj_or_json` is a parameter name of `write_metadata` only and
never a module-level binding, nor a Python builtin. -/
def buildModuleScope : List String :=
  ["SimpleNamespace", "deepcopy", "jsonable_encoder", "Namespace", "Schema",
   "System", "Data_entity", "Pipeline", "id_to_unid", "ENTITIES",
   "FLAT_PL_KEYS", "FLAT_ENT_KEYS", "FLAT_SYS_KEYS", "Callable",
   "read_metadata", "write_metadata", "write_dag_config",
   "metadata_json_to_objects", "create_id_indexes", "generate_unids",
   "create_unid_indexes", "integrate_pipelines", "objectify_flat_instance",
   "flatten_instance", "integrated_to_dag_config",
   "metadata_objects_to_json", "schema_unid_refs_to_ids",
   "system_unid_refs_to_ids", "data_entity_unid_refs_to_ids",
   "pipeline_unid_refs_to_ids", "unid_refs_to_ids",
   "objects_from_unid_index", "objects_from_id_index"]

/-- Python name resolution for the body of `write_dag_config`: local
scope, then module scope. -/
def pyNameResolves (name : String) : Bool :=
  write_dag_config_locals.contains name || buildModuleScope.contains name

/-- `build.py` `write_dag_config`: binds `ent_type = 'dag_config'`,
then evaluates `jsonable_encoder(deepcopy(metadata_obj_or_json))` —
whose argument name must resolve before anything else runs — and only
then would call `storage_writer`. The second component of the result
lists the `storage_writer` invocations actually performed. -/
def write_dag_config (location : String) (dag_config : PyVal) :
    Except PyErr Unit × List (String × String × PyVal) :=
  let ent_type := "dag_config"
  if pyNameResolves "metadata_obj_or_json" then
    (.ok (), [(location, ent_type, dag_config)])
  else
    (.error (.nameError "name metadata_obj_or_json is not defined"), [])

/-! ## Dict lemmas -/

/-- Lookup after a Python dict assignment: the assigned key reads the
new value, any other key is unaffected. -/
theorem pyGet?_pyInsert [BEq κ] [LawfulBEq κ] (d : List (κ × α)) (k : κ)
    (v : α) (k' : κ) :
    pyGet? (pyInsert d k v) k' = if k' == k then some v else pyGet? d k' := by
  induction d with
  | nil =>
      by_cases h : k' = k
      · subst h; simp [pyInsert, pyGet?]
      · have h1 : (k == k') = false := by
          simp [beq_eq_false_iff_ne]; exact fun hc => h hc.symm
        have h2 : (k' == k) = false := by simp [beq_eq_false_iff_ne, h]
        simp [pyInsert, pyGet?, h1, h2]
  | cons p t ih =>
      by_cases hp : p.1 = k
      · have hb : (p.1 == k) = true := by simp [hp]
        simp only [pyInsert, hb, if_pos rfl]
        by_cases h : k' = k
        · subst h; simp [pyGet?]
        · have h1 : (k == k') = false := by
            simp [beq_eq_false_iff_ne]; exact fun hc => h hc.symm
          have h2 : (p.1 == k') = false := by
            simp [beq_eq_false_iff_ne, hp]; exact fun hc => h hc.symm
          have h3 : (k' == k) = false := by simp [beq_eq_false_iff_ne, h]
          simp [pyGet?, h1, h2, h3]
      · have hb : (p.1 == k) = false := by simp [beq_eq_false_iff_ne, hp]
        simp only [pyInsert, hb, Bool.false_eq_true, if_false]
        by_cases h2 : p.1 = k'
        · have hb2 : (p.1 == k') = true := by simp [h2]
          have hne : (k' == k) = false := by
            simp [beq_eq_false_iff_ne]
            exact fun hc => hp (h2.trans hc)
          simp [pyGet?, hb2, hne]
        · have hb2 : (p.1 == k') = false := by simp [beq_eq_false_iff_ne, h2]
          simp [pyGet?, hb2, ih]

/-- `getLast?` of a cons, phrased through `Option.orElse`. -/
theorem getLast?_cons_orElse (x : α) (l : List α) :
    (x :: l).getLast? = l.getLast?.orElse (fun _ => some x) := by
  cases l with
  | nil => rfl
  | cons y t =>
      rw [List.getLast?_cons_cons]
      have h : (y :: t).getLast? ≠ none := by simp
      obtain ⟨a, ha⟩ := Option.ne_none_iff_exists'.mp h
      rw [ha]; rfl

/-- Lookup in a dict built by folding `pyInsert` over a list keyed by
`key`: the last list element with the looked-up key wins; a missing key
falls back to the seed dict. -/
theorem pyGet?_foldl_insert [BEq κ] [LawfulBEq κ] (key : α → κ) :
    ∀ (l : List α) (d : List (κ × α)) (k : κ),
    pyGet? (l.foldl (fun d x => pyInsert d (key x) x) d) k =
      ((l.filter (fun x => key x == k)).getLast?).orElse
        (fun _ => pyGet? d k) := by
  intro l
  induction l with
  | nil => intro d k; rfl
  | cons x t ih =>
      intro d k
      simp only [List.foldl_cons]
      rw [ih]
      by_cases hx : key x = k
      · have hb : (key x == k) = true := by simp [hx]
        have hb' : (k == key x) = true := by simp [hx]
        simp only [List.filter_cons, hb, if_true]
        rw [getLast?_cons_orElse, pyGet?_pyInsert]
        simp only [hb', if_pos rfl]
        cases hA : (t.filter (fun y => key y == k)).getLast? <;>
          simp [Option.orElse, hA]
      · have hb : (key x == k) = false := by simp [beq_eq_false_iff_ne, hx]
        have hb' : (k == key x) = false := by
          simp [beq_eq_false_iff_ne]; exact fun hc => hx hc.symm
        simp only [List.filter_cons, hb, Bool.false_eq_true, if_false]
        rw [pyGet?_pyInsert]
        simp [hb']

/-! ## Concrete graphs used by the theorems and their witnesses -/

/-- Spec §8 scenario namespace `id=1, name="sales"`. -/
def nsSales : Namespace := { id := 1, name := "sales", created := 0, modified := 0 }

/-- Spec §8 scenario schema `orders`, version 1, type `avro`. -/
def schOrders : Schema :=
  { id := 1, nspace := .rid 1, name := "orders", type := "avro", version := 1
    created := 0, modified := 0 }

/-- Spec §8 scenario system `erp`, type `internal`. -/
def sysErp : System :=
  { id := 1, nspace := .rid 1, name := "erp", type := "internal"
    created := 0, modified := 0 }

/-- Spec §8 scenario data entity `orders_raw`, type `dataset`,
interface `sql`. -/
def entOrdersRaw : Data_entity :=
  { id := 1, nspace := .rid 1, system := .rid 1, name := "orders_raw"
    type := "dataset", interface := "sql", entity_schema := .rid 1
    created := 0, modified := 0 }

/-- The spec §8 scenario graph. -/
def mdScenario : MDObjects :=
  { namespaces := [nsSales], schemas := [schOrders], systems := [sysErp]
    data_entities := [entOrdersRaw], pipelines := [] }

/-- Id index of the scenario graph. -/
def idxScenario : IdIdx := create_id_indexes mdScenario

/-- An empty unid index, the pre-build placeholder. -/
def emptyUnidIdx : UnidIdx :=
  { namespaces_unid_idx := [], schemas_unid_idx := [], systems_unid_idx := []
    data_entities_unid_idx := [], pipelines_unid_idx := [] }

/-- An empty validation report placeholder. -/
def emptyGraphReport : GraphReport :=
  { valid := false, schemas := [], systems := [], data_entities := []
    pipelines := [] }

/-- Seed a `MetadataStructure` from bare objects, to be completed by
`build_from_objects` (mirroring construction from loaded json before
the build). -/
def mkStruct (md : MDObjects) : MetadataStructure :=
  { md_json := md, md_objects := md, md_obj_with_unids := md
    by_id := create_id_indexes md, by_unid := emptyUnidIdx, integrated := []
    dag_config := [], valid := false, report := emptyGraphReport }

/-- The fully built scenario structure (the build succeeds on this
graph). -/
def stScenario : MetadataStructure :=
  (build_from_objects (mkStruct mdScenario)).toOption.getD
    (mkStruct mdScenario)

/-- Unid index of the scenario graph, from the built structure. -/
def uidxScenario : UnidIdx := stScenario.by_unid

/-- A manager whose workspace is the (valid) scenario structure. -/
def mmScenario : MetadataManager := { workspace := stScenario, cache := none }

/-- A second namespace referenced by nothing. -/
def nsEmpty : Namespace := { id := 2, name := "empty", created := 0, modified := 0 }

/-- The scenario system with an enum-invalid `type`, used to make a
graph that loads but does not validate. -/
def sysBogus : System := { sysErp with type := "bogus" }

/-- A loadable but invalid graph: the scenario plus an unreferenced
namespace, with the system's `type` outside `SYSTEM_TYPES`. -/
def mdW : MDObjects :=
  { namespaces := [nsSales, nsEmpty], schemas := [schOrders]
    systems := [sysBogus], data_entities := [entOrdersRaw], pipelines := [] }

/-- The built (and invalid) workspace structure over `mdW`. -/
def stW : MetadataStructure :=
  (build_from_objects (mkStruct mdW)).toOption.getD (mkStruct mdW)

/-- A manager whose workspace is the invalid structure `stW`. -/
def mmW : MetadataManager := { workspace := stW, cache := none }

/-! ## C9 -/

/-- C9: every call of `write_dag_config` raises `NameError` on the
undefined name `metadata_obj_or_json` before invoking the storage
writer, so no dag_config payload is ever written through it. -/
theorem C9_write_dag_config_name_error (location : String)
    (dag_config : PyVal) :
    write_dag_config location dag_config =
      (.error (.nameError "name metadata_obj_or_json is not defined"), []) := by
  rfl

/-! ## C10 -/

/-- C10 counterexample: a call of `read_metadata` that omits
`exclude_entities` but passes an invalid entity type first raises
`ValueError`, not the `TypeError` of the membership test, so the claim
fails as a statement about every such call. -/
theorem C10_read_metadata_counterexample :
    read_metadata (fun _ _ => []) "" (some ["bogus"]) none =
        .error (.valueError "bogus is not a valid metadata entity.")
      ∧ read_metadata (fun _ _ => []) "" (some ["bogus"]) none ≠
        .error (.typeError "argument of type NoneType is not iterable") := by
  refine ⟨rfl, fun h => ?_⟩
  exact PyErr.noConfusion (Except.error.inj h)

/-- C10 (amended): every call of `read_metadata` that omits
`exclude_entities` raises before reading any metadata — the `TypeError`
of the membership test whenever the first considered entity type is
valid (in particular whenever `md_entities` is omitted or falsy), a
`ValueError` otherwise — and in no case returns metadata; it can
complete normally only when a list is passed for `exclude_entities`. -/
theorem C10_read_metadata_none_exclude :
    (∀ (storage_reader : String → String → List PyVal) (location : String),
      read_metadata storage_reader location none none =
        .error (.typeError "argument of type NoneType is not iterable"))
    ∧ (∀ (storage_reader : String → String → List PyVal) (location : String)
        (e : String) (rest : List String), ENTITIES.contains e = true →
        read_metadata storage_reader location (some (e :: rest)) none =
          .error (.typeError "argument of type NoneType is not iterable"))
    ∧ (∀ (storage_reader : String → String → List PyVal) (location : String)
        (md_entities : Option (List String))
        (res : List (String × List PyVal)),
        read_metadata storage_reader location md_entities none ≠ .ok res) := by
  refine ⟨fun r l => rfl, fun r l e rest he => ?_, fun r l ents res => ?_⟩
  · simp only [read_metadata, read_metadata_go, he]
    simp
  · have step : ∀ (e : String) (rest : List String) acc,
        read_metadata_go r l none (e :: rest) acc ≠ .ok res := by
      intro e rest acc
      simp only [read_metadata_go]
      split <;> simp
    match ents with
    | none =>
        exact step "namespaces"
          ["schemas", "systems", "data_entities", "pipelines", "dag_config"] []
    | some [] =>
        exact step "namespaces"
          ["schemas", "systems", "data_entities", "pipelines", "dag_config"] []
    | some (e :: rest) => exact step e rest []

/-- C10 witness: the amended theorem applied at a concrete call that
leaves both optional arguments at their defaults. -/
theorem C10_read_metadata_none_exclude_witness :
    read_metadata (fun _ _ => []) "loc" (some ["namespaces"]) none =
      .error (.typeError "argument of type NoneType is not iterable") :=
  C10_read_metadata_none_exclude.2.1 (fun _ _ => []) "loc" "namespaces" []
    (by decide)

/-! ## C3 -/

/-- Two namespace records sharing id 1. -/
def nsA : Namespace := { id := 1, name := "a", created := 0, modified := 0 }

/-- The second record with the same id. -/
def nsB : Namespace := { id := 1, name := "b", created := 0, modified := 0 }

/-- A flat collection in which two records of the same type share an id. -/
def mdDupNs : MDObjects :=
  { namespaces := [nsA, nsB], schemas := [], systems := []
    data_entities := [], pipelines := [] }

/-- C3 counterexample: on a collection with two same-type records of
id 1, `create_id_indexes` does not fail with a `DuplicateId` error — it
produces an index that silently keeps only the later record. -/
theorem C3_duplicate_id_counterexample :
    (create_id_indexes mdDupNs).namespaces_idx = [(1, nsB)] ∧ nsA ≠ nsB := by
  exact ⟨rfl, by decide⟩

/-- C3 (amended): `create_id_indexes` never fails; for every collection
and every id, the id index of each entity type maps the id to the last
record of that type carrying it (last-writer-wins), silently dropping
earlier duplicates. -/
theorem C3_create_id_indexes_last_writer_wins (md : MDObjects) (id : Nat) :
    pyGet? (create_id_indexes md).namespaces_idx id =
        (md.namespaces.filter (fun o => o.id == id)).getLast?
    ∧ pyGet? (create_id_indexes md).schemas_idx id =
        (md.schemas.filter (fun o => o.id == id)).getLast?
    ∧ pyGet? (create_id_indexes md).systems_idx id =
        (md.systems.filter (fun o => o.id == id)).getLast?
    ∧ pyGet? (create_id_indexes md).data_entities_idx id =
        (md.data_entities.filter (fun o => o.id == id)).getLast?
    ∧ pyGet? (create_id_indexes md).pipelines_idx id =
        (md.pipelines.filter (fun o => o.id == id)).getLast? := by
  refine ⟨?_, ?_, ?_, ?_, ?_⟩ <;>
    simp only [create_id_indexes] <;>
    rw [pyGet?_foldl_insert] <;>
    cases h : List.getLast? _ <;> rfl

/-! ## C2 -/

/-- The scenario system carrying a reserved-prefix config key. -/
def sysBadCfg : System := { sysErp with config := some [("pl_evil", .vStr "x")] }

/-- The scenario graph with the reserved-prefix system. -/
def mdBadCfg : MDObjects := { mdScenario with systems := [sysBadCfg] }

/-- C2: a System whose config map contains a key starting with `pl_`
nevertheless passes whole-graph validation — `config_keys_are_legal`
rejects the config but is never invoked by `MetadataStructure.validate`,
so no `ReservedConfigKeyConflict` is ever reported. The claim (and the
spec's reserved-prefix invariant) states the intended behaviour; the
code never wires the check in. -/
theorem C2_reserved_prefix_not_enforced :
    (build_from_objects (mkStruct mdBadCfg)).map (·.valid) = .ok true
      ∧ config_keys_are_legal sysBadCfg.config = false
      ∧ sysBadCfg.config = some [("pl_evil", .vStr "x")] := by
  refine ⟨rfl, ?_, rfl⟩
  decide

/-! ## C8 -/

/-- A candidate schema that violates two invariants at once: its
namespace reference does not resolve and its id collides with the
existing schema. -/
def schCand : Schema :=
  { id := 1, nspace := .rid 99, name := "neworders", type := "avro"
    version := 2, created := 0, modified := 0 }

/-- C8 counterexample: validating `schCand` as a new entity reports only
the reference error — the id-uniqueness violation, present at the same
time, is absent from the report because `validate_new_schema` returns
early when the base validation fails. -/
theorem C8_first_error_group_counterexample :
    validate_new_schema schCand stScenario.by_id stScenario.by_unid =
        { valid := false, errors := ["Referenced namespace id 99 does not exist"] }
      ∧ id_exists stScenario.by_id "schemas" schCand.id = true := by
  exact ⟨rfl, rfl⟩

/-- C8 (amended): each individual validator accumulates all of its own
findings into one report, but the new-entity validators return the base
report unchanged when reference/enum validation fails: id- and
compound-key-uniqueness violations are checked and reported (together)
only when the base checks pass. -/
theorem C8_validation_error_accumulation :
    (∀ (schema : Schema) (idIdx : IdIdx) (uidx : UnidIdx),
      (validate_schema schema idIdx uidx).valid = false →
      validate_new_schema schema idIdx uidx = validate_schema schema idIdx uidx)
    ∧ (∀ (schema : Schema) (idIdx : IdIdx) (uidx : UnidIdx),
      (validate_schema schema idIdx uidx).valid = true →
      validate_new_schema schema idIdx uidx =
        { valid := (!(id_exists idIdx "schemas" schema.id))
            && (!(unid_exists uidx "schemas"
                  (schema.name ++ "." ++ toString schema.version)))
          errors :=
            (if id_exists idIdx "schemas" schema.id then
              ["A schema with id " ++ toString schema.id ++ " exists already"]
            else [])
            ++ (if unid_exists uidx "schemas"
                  (schema.name ++ "." ++ toString schema.version) then
              ["A schema with UNID "
                ++ (schema.name ++ "." ++ toString schema.version)
                ++ " exists already"]
            else []) })
    ∧ (∀ (system : System) (mdObj : MDObjects) (idIdx : IdIdx)
        (uidx : UnidIdx),
      (validate_system system mdObj idIdx uidx).valid = false →
      validate_new_system system mdObj idIdx uidx =
        .ok (validate_system system mdObj idIdx uidx)) := by
  refine ⟨fun schema idIdx uidx h => ?_, fun schema idIdx uidx h => ?_,
    fun system mdObj idIdx uidx h => ?_⟩
  · simp only [validate_new_schema, h, Bool.false_eq_true,
      not_false_eq_true, if_true]
  · have hv := h
    simp only [validate_schema, Bool.and_eq_true, List.isEmpty_iff] at hv
    have herr : (validate_schema schema idIdx uidx).errors = [] := by
      simp only [validate_schema]
      rw [hv.1, hv.2]
      rfl
    simp only [validate_new_schema, h, not_true_eq_false, if_false, herr]
    by_cases h1 : id_exists idIdx "schemas" schema.id <;>
      by_cases h2 : unid_exists uidx "schemas"
          (schema.name ++ "." ++ toString schema.version) <;>
      simp [h1, h2]
  · simp only [validate_new_system, h, Bool.false_eq_true,
      not_false_eq_true, if_true]
    rfl

/-- C8 witness: the amended theorem's base-valid branch applied to the
candidate schema with a fresh name but duplicate id against the
scenario graph: the early-return branch and the uniqueness branch at
concrete inputs. -/
theorem C8_validation_error_accumulation_witness :
    validate_new_schema schCand stScenario.by_id stScenario.by_unid =
        validate_schema schCand stScenario.by_id stScenario.by_unid
      ∧ validate_new_schema { schCand with nspace := .rid 1, id := 2 }
          stScenario.by_id stScenario.by_unid =
        { valid := true, errors := [] } := by
  constructor
  · exact C8_validation_error_accumulation.1 schCand stScenario.by_id
      stScenario.by_unid rfl
  · have h := C8_validation_error_accumulation.2.1
      { schCand with nspace := .rid 1, id := 2 } stScenario.by_id
      stScenario.by_unid rfl
    rw [h]; decide

/-! ## C6 -/

/-- The spec §4.1 compound-key formula for a System, as worded:
`<namespace-key>.name`. -/
def spec_system_key (nsKey name : String) : String := nsKey ++ "." ++ name

/-- The spec §4.1 compound-key formula for a DataEntity, as worded:
`<namespace-key>.<system-key>.name.type`. -/
def spec_data_entity_key (nsKey sysKey name type : String) : String :=
  nsKey ++ "." ++ sysKey ++ "." ++ name ++ "." ++ type

/-- C6: whenever the ancestors of a data entity resolve in the id
index, its derived key is `<namespace-key>.<system-key>.name.type`
(the namespace name reappears inside the system key); on the spec's
concrete scenario the derived key is
`sales.sales.erp.orders_raw.dataset`. -/
theorem C6_data_entity_key_derivation :
    (∀ (idx : IdIdx) (id nsid sysid sysnsid : Nat) (ent : Data_entity)
      (ns sysns : Namespace) (sys : System),
      pyGet? idx.data_entities_idx id = some ent →
      ent.nspace = .rid nsid →
      pyGet? idx.namespaces_idx nsid = some ns →
      ent.system = .rid sysid →
      pyGet? idx.systems_idx sysid = some sys →
      sys.nspace = .rid sysnsid →
      pyGet? idx.namespaces_idx sysnsid = some sysns →
      data_entity_id_to_unid idx id =
        .ok (spec_data_entity_key ns.name
          (spec_system_key sysns.name sys.name) ent.name ent.type))
    ∧ data_entity_id_to_unid stScenario.by_id 1 =
        .ok "sales.sales.erp.orders_raw.dataset" := by
  constructor
  · intro idx id nsid sysid sysnsid ent ns sysns sys h1 h2 h3 h4 h5 h6 h7
    simp only [data_entity_id_to_unid, h1, h2, h4, namespace_ref_to_unid,
      system_ref_to_unid, namespace_id_to_unid, system_id_to_unid, h3, h5,
      h6, h7, spec_data_entity_key, spec_system_key, bind, Except.bind]
  · rfl

/-- C6 witness: the general derivation applied to the scenario's id
index at the concrete entity. -/
theorem C6_data_entity_key_derivation_witness :
    data_entity_id_to_unid idxScenario 1 =
      .ok (spec_data_entity_key nsSales.name
        (spec_system_key nsSales.name sysErp.name) entOrdersRaw.name
        entOrdersRaw.type) :=
  C6_data_entity_key_derivation.1 idxScenario 1 1 1 1 entOrdersRaw nsSales
    nsSales sysErp rfl rfl rfl rfl rfl rfl rfl

/-! ## C4 -/

/-- Characterization of one dependants-scan loop: it appends exactly
the matching elements, in order, and flags `has_dependants` as soon as
one matched. -/
theorem depStep_foldl (p : α → Bool) (f : α → AnyEntity) :
    ∀ (l : List α) (r : DepReport),
    l.foldl (fun r e => depStep r (p e) (f e)) r =
      { has_dependants := r.has_dependants || l.any p
        dependants := r.dependants ++ (l.filter p).map f } := by
  intro l
  induction l with
  | nil => intro r; simp
  | cons x t ih =>
      intro r
      simp only [List.foldl_cons, List.any_cons, List.filter_cons]
      rw [ih]
      by_cases hx : p x
      · simp [depStep, hx, Bool.or_assoc]
      · simp [depStep, hx]

/-- Emptiness of an appended list, through Boolean or. -/
theorem not_isEmpty_append (l1 l2 : List α) :
    !(l1 ++ l2).isEmpty = (!l1.isEmpty || !l2.isEmpty) := by
  cases l1 <;> cases l2 <;> simp

/-- A mapped list is empty exactly when the original is. -/
theorem not_isEmpty_map (f : α → β) (l : List α) :
    !(l.map f).isEmpty = !l.isEmpty := by
  cases l <;> simp

/-- A list has a member satisfying `p` exactly when its `p`-filter is
non-empty. -/
theorem any_eq_not_isEmpty_filter (p : α → Bool) (l : List α) :
    l.any p = !(l.filter p).isEmpty := by
  induction l with
  | nil => rfl
  | cons x t ih =>
      by_cases hx : p x <;> simp [hx, ih]

/-- C4: the namespace dependants report lists exactly the schemas,
systems, data entities and pipelines whose `namespace` field is the
namespace's id (in that scan order), with `has_dependants` true exactly
when that list is non-empty; `delete_entity` on a namespace refuses the
deletion and returns that report whenever it is non-empty, and proceeds
to the staged deletion when it is empty. -/
theorem C4_namespace_dependency_gate :
    (∀ (namespace_ : Namespace) (mdObj : MDObjects),
      (get_namespace_dependants namespace_ mdObj).dependants =
          (mdObj.schemas.filter
            (fun e => refEqId e.nspace namespace_.id)).map AnyEntity.sch
          ++ (mdObj.systems.filter
            (fun e => refEqId e.nspace namespace_.id)).map AnyEntity.sys
          ++ (mdObj.data_entities.filter
            (fun e => refEqId e.nspace namespace_.id)).map AnyEntity.ent
          ++ (mdObj.pipelines.filter
            (fun e => refEqId e.nspace namespace_.id)).map AnyEntity.pl
        ∧ (get_namespace_dependants namespace_ mdObj).has_dependants =
          !(get_namespace_dependants namespace_ mdObj).dependants.isEmpty)
    ∧ (∀ (mm : MetadataManager) (unid : String) (ns : Namespace),
      pyGet? mm.workspace.by_unid.namespaces_unid_idx (some unid) = some ns →
      (get_namespace_dependants ns mm.workspace.md_objects).has_dependants
        = true →
      delete_entity mm "namespaces" unid =
        (.rDepReport (get_namespace_dependants ns mm.workspace.md_objects),
         mm))
    ∧ (∀ (mm : MetadataManager) (unid : String) (ns : Namespace),
      pyGet? mm.workspace.by_unid.namespaces_unid_idx (some unid) = some ns →
      (get_namespace_dependants ns mm.workspace.md_objects).has_dependants
        = false →
      delete_entity mm "namespaces" unid =
        deleteStaged mm "namespaces" unid) := by
  refine ⟨fun namespace_ mdObj => ?_, fun mm unid ns h1 h2 => ?_,
    fun mm unid ns h1 h2 => ?_⟩
  · constructor
    · simp [get_namespace_dependants, depStep_foldl]
    · simp only [get_namespace_dependants, depStep_foldl, Bool.false_or,
        List.nil_append]
      rw [any_eq_not_isEmpty_filter, any_eq_not_isEmpty_filter,
        any_eq_not_isEmpty_filter, any_eq_not_isEmpty_filter]
      generalize (List.filter (fun e =>
        refEqId e.nspace namespace_.id) mdObj.schemas) = A
      generalize (List.filter (fun e =>
        refEqId e.nspace namespace_.id) mdObj.systems) = B
      generalize (List.filter (fun e =>
        refEqId e.nspace namespace_.id) mdObj.data_entities) = C
      generalize (List.filter (fun e =>
        refEqId e.nspace namespace_.id) mdObj.pipelines) = D
      cases A <;> cases B <;> cases C <;> cases D <;> simp
  · simp only [delete_entity]
    simp only [show ENTITIES.contains "namespaces" = true from rfl,
      not_true_eq_false, Bool.false_eq_true, if_false]
    simp only [show ("namespaces" == "dag_config") = false from rfl,
      Bool.false_eq_true, if_false]
    simp only [show ("namespaces" == "namespaces") = true from rfl, if_true]
    rw [h1]
    simp only [h2, if_true]
  · simp only [delete_entity]
    simp only [show ENTITIES.contains "namespaces" = true from rfl,
      not_true_eq_false, Bool.false_eq_true, if_false]
    simp only [show ("namespaces" == "dag_config") = false from rfl,
      Bool.false_eq_true, if_false]
    simp only [show ("namespaces" == "namespaces") = true from rfl, if_true]
    rw [h1]
    simp only [h2, Bool.false_eq_true, if_false]

/-- C4 witness: on the loaded workspace over `mdW`, deleting namespace
`sales` (referenced by the schema, the system and the data entity) is
refused with the dependants report, while deleting the unreferenced
namespace `empty` passes the gate into the staged deletion. -/
theorem C4_namespace_dependency_gate_witness :
    delete_entity mmW "namespaces" "sales" =
        (.rDepReport (get_namespace_dependants
          { nsSales with unid := some "sales" } stW.md_objects), mmW)
      ∧ delete_entity mmW "namespaces" "empty" =
        deleteStaged mmW "namespaces" "empty" := by
  constructor
  · exact C4_namespace_dependency_gate.2.1 mmW "sales"
      { nsSales with unid := some "sales" } rfl rfl
  · exact C4_namespace_dependency_gate.2.2 mmW "empty"
      { nsEmpty with unid := some "empty" } rfl rfl

/-! ## C5 -/

/-- A base-valid `validate_system` report carries no errors. -/
theorem validate_system_valid_errors (system : System) (mdObj : MDObjects)
    (idIdx : IdIdx) (uidx : UnidIdx)
    (h : (validate_system system mdObj idIdx uidx).valid = true) :
    (validate_system system mdObj idIdx uidx).errors = [] := by
  have hv := h
  simp only [validate_system, Bool.and_eq_true, List.isEmpty_iff] at hv
  simp only [validate_system]
  rw [hv.1, hv.2]
  rfl

/-- C5: new-entity validation (shown for systems, whose compound key is
derived by tentatively inserting the candidate into a scratch copy of
the id index, and for namespaces): a candidate whose id is already in
use is rejected with the duplicate-id error; a candidate whose derived
compound key is already in use is rejected with the duplicate-key
error; a candidate with a fresh id and a fresh key that passes the
reference and enum checks is accepted with a clean report. -/
theorem C5_uniqueness_on_insert :
    (∀ (system : System) (mdObj : MDObjects) (idIdx : IdIdx)
      (uidx : UnidIdx) (tmp : System) (u : String),
      (validate_system system mdObj idIdx uidx).valid = true →
      id_exists idIdx "systems" system.id = true →
      system_unid_refs_to_ids uidx system = .ok tmp →
      id_to_unid (create_id_indexes
          { mdObj with systems := mdObj.systems ++ [tmp] }) "systems" tmp.id
        = .ok u →
      ∃ rep, validate_new_system system mdObj idIdx uidx = .ok rep
        ∧ rep.valid = false
        ∧ ("A system with id " ++ toString system.id ++ " exists already")
            ∈ rep.errors)
    ∧ (∀ (system : System) (mdObj : MDObjects) (idIdx : IdIdx)
      (uidx : UnidIdx) (tmp : System) (u : String),
      (validate_system system mdObj idIdx uidx).valid = true →
      system_unid_refs_to_ids uidx system = .ok tmp →
      id_to_unid (create_id_indexes
          { mdObj with systems := mdObj.systems ++ [tmp] }) "systems" tmp.id
        = .ok u →
      unid_exists uidx "systems" u = true →
      ∃ rep, validate_new_system system mdObj idIdx uidx = .ok rep
        ∧ rep.valid = false
        ∧ ("A system with UNID " ++ u ++ " exists already") ∈ rep.errors)
    ∧ (∀ (system : System) (mdObj : MDObjects) (idIdx : IdIdx)
      (uidx : UnidIdx) (tmp : System) (u : String),
      (validate_system system mdObj idIdx uidx).valid = true →
      id_exists idIdx "systems" system.id = false →
      system_unid_refs_to_ids uidx system = .ok tmp →
      id_to_unid (create_id_indexes
          { mdObj with systems := mdObj.systems ++ [tmp] }) "systems" tmp.id
        = .ok u →
      unid_exists uidx "systems" u = false →
      validate_new_system system mdObj idIdx uidx =
        .ok { valid := true, errors := [] })
    ∧ (∀ (namespace_ : Namespace) (idIdx : IdIdx) (uidx : UnidIdx),
      unid_exists uidx "namespaces" namespace_.name = true →
      (validate_new_namespace namespace_ idIdx uidx).valid = false
        ∧ ("A namespace with name " ++ namespace_.name ++ " exists already")
            ∈ (validate_new_namespace namespace_ idIdx uidx).errors)
    ∧ (∀ (namespace_ : Namespace) (idIdx : IdIdx) (uidx : UnidIdx),
      id_exists idIdx "namespaces" namespace_.id = true →
      (validate_new_namespace namespace_ idIdx uidx).valid = false
        ∧ ("A namespace with id " ++ toString namespace_.id
            ++ " exists already")
            ∈ (validate_new_namespace namespace_ idIdx uidx).errors)
    ∧ (∀ (namespace_ : Namespace) (idIdx : IdIdx) (uidx : UnidIdx),
      unid_exists uidx "namespaces" namespace_.name = false →
      id_exists idIdx "namespaces" namespace_.id = false →
      validate_new_namespace namespace_ idIdx uidx =
        { valid := true, errors := [] }) := by
  refine ⟨?_, ?_, ?_, ?_, ?_, ?_⟩
  · intro system mdObj idIdx uidx tmp u hbase hid hconv hkey
    simp only [validate_new_system, hbase, not_true_eq_false, if_false,
      hconv, bind, Except.bind, hkey, hid, if_true]
    exact ⟨_, rfl, by simp, by simp [List.mem_append]⟩
  · intro system mdObj idIdx uidx tmp u hbase hconv hkey hu
    simp only [validate_new_system, hbase, not_true_eq_false, if_false,
      hconv, bind, Except.bind, hkey, hu, if_true]
    exact ⟨_, rfl, by simp, by simp [List.mem_append]⟩
  · intro system mdObj idIdx uidx tmp u hbase hid hconv hkey hu
    have herr := validate_system_valid_errors system mdObj idIdx uidx hbase
    simp only [validate_new_system, hbase, not_true_eq_false, if_false,
      hconv, bind, Except.bind, hkey, hid, hu, Bool.false_eq_true, herr]
    rfl
  · intro namespace_ idIdx uidx hu
    simp only [validate_new_namespace, hu, if_true]
    exact ⟨by simp, by simp [List.mem_append]⟩
  · intro namespace_ idIdx uidx hid
    simp only [validate_new_namespace, hid, if_true]
    constructor
    · by_cases hu : unid_exists uidx "namespaces" namespace_.name <;>
        simp [hu]
    · simp [List.mem_append]
  · intro namespace_ idIdx uidx hu hid
    simp only [validate_new_namespace, hu, hid, Bool.false_eq_true, if_false]
    rfl

/-- The scenario's system collection already contains id 1 and the
derived key `sales.erp`; a candidate reusing the id. -/
def sysDupId : System :=
  { id := 1, nspace := .rid 1, name := "erp2", type := "internal"
    created := 0, modified := 0 }

/-- A candidate system with a fresh id whose derived compound key
collides with `sales.erp`. -/
def sysDupKey : System :=
  { id := 2, nspace := .rid 1, name := "erp", type := "internal"
    created := 0, modified := 0 }

/-- A candidate system with a fresh id and a fresh derived key. -/
def sysFresh : System :=
  { id := 2, nspace := .rid 1, name := "erp2", type := "internal"
    created := 0, modified := 0 }

/-- C5 witness: the six clauses applied to concrete candidates against
the built scenario workspace. -/
theorem C5_uniqueness_on_insert_witness :
    (∃ rep, validate_new_system sysDupId stScenario.md_objects
        stScenario.by_id stScenario.by_unid = .ok rep
      ∧ rep.valid = false
      ∧ ("A system with id 1 exists already") ∈ rep.errors)
    ∧ (∃ rep, validate_new_system sysDupKey stScenario.md_objects
        stScenario.by_id stScenario.by_unid = .ok rep
      ∧ rep.valid = false
      ∧ ("A system with UNID sales.erp exists already") ∈ rep.errors)
    ∧ validate_new_system sysFresh stScenario.md_objects stScenario.by_id
        stScenario.by_unid = .ok { valid := true, errors := [] }
    ∧ ((validate_new_namespace { nsSales with id := 9 } stScenario.by_id
          stScenario.by_unid).valid = false)
    ∧ ((validate_new_namespace { nsSales with name := "other" }
          stScenario.by_id stScenario.by_unid).valid = false)
    ∧ validate_new_namespace { nsSales with id := 9, name := "other" }
        stScenario.by_id stScenario.by_unid =
        { valid := true, errors := [] } := by
  refine ⟨?_, ?_, ?_, ?_, ?_, ?_⟩
  · exact C5_uniqueness_on_insert.1 sysDupId stScenario.md_objects
      stScenario.by_id stScenario.by_unid sysDupId "sales.erp2" rfl rfl rfl rfl
  · exact C5_uniqueness_on_insert.2.1 sysDupKey stScenario.md_objects
      stScenario.by_id stScenario.by_unid sysDupKey "sales.erp" rfl rfl rfl rfl
  · exact C5_uniqueness_on_insert.2.2.1 sysFresh stScenario.md_objects
      stScenario.by_id stScenario.by_unid sysFresh "sales.erp2" rfl rfl rfl
      rfl rfl
  · exact (C5_uniqueness_on_insert.2.2.2.1 { nsSales with id := 9 }
      stScenario.by_id stScenario.by_unid rfl).1
  · exact (C5_uniqueness_on_insert.2.2.2.2.1 { nsSales with name := "other" }
      stScenario.by_id stScenario.by_unid rfl).1
  · exact C5_uniqueness_on_insert.2.2.2.2.2 { nsSales with id := 9, name := "other" }
      stScenario.by_id stScenario.by_unid rfl rfl

/-! ## C7 -/

/-- The flattened instance list of one pipeline, in instance order. -/
def instanceListOf (pl : IPipeline) : List PyDict :=
  pl.input_output.map (flattenInstCore pl)

/-- Characterization of the `dag_config` accumulation fold: when every
pipeline of the list carries a unid, the fold succeeds, and looking up
a key returns the instance list of the last listed pipeline whose
stripped unid is that key, falling back to the seed dict. -/
theorem dag_foldlM_char :
    ∀ (l : List IPipeline) (conf : DagConf),
    l.all (fun p => p.unid.isSome) = true →
    ∃ out, l.foldlM dagStep conf = .ok out ∧ ∀ k,
      pyGet? out k =
        (((l.filter (fun p => pyStripVersion (p.unid.getD "") == k)).getLast?).map
          instanceListOf).orElse (fun _ => pyGet? conf k) := by
  intro l
  induction l with
  | nil =>
      intro conf _
      exact ⟨conf, rfl, fun k => rfl⟩
  | cons p t ih =>
      intro conf hall
      simp only [List.all_cons, Bool.and_eq_true] at hall
      obtain ⟨u, hu⟩ := Option.isSome_iff_exists.mp hall.1
      obtain ⟨out, hout, hchar⟩ :=
        ih (pyInsert conf (pyStripVersion u)
          (p.input_output.map (flattenInstCore p))) hall.2
      refine ⟨out, ?_, ?_⟩
      · simp only [List.foldlM_cons, dagStep, hu]
        exact hout
      · intro k
        rw [hchar k]
        simp only [List.filter_cons, hu, Option.getD_some]
        by_cases hb : pyStripVersion u = k
        · have hbeq : (pyStripVersion u == k) = true := by simp [hb]
          have hkeq : (k == pyStripVersion u) = true := by simp [hb]
          simp only [hbeq, if_true]
          rw [getLast?_cons_orElse, pyGet?_pyInsert]
          simp only [hkeq, if_pos rfl]
          cases hA : (t.filter
              (fun q => pyStripVersion (q.unid.getD "") == k)).getLast? <;>
            simp [Option.orElse, hA, instanceListOf]
        · have hbeq : (pyStripVersion u == k) = false := by
            simp [beq_eq_false_iff_ne, hb]
          have hkeq : (k == pyStripVersion u) = false := by
            simp [beq_eq_false_iff_ne]; exact fun hc => hb hc.symm
          simp only [hbeq, Bool.false_eq_true, if_false]
          rw [pyGet?_pyInsert]
          simp [hkeq]

/-- C7: flattening an integrated graph for consumption keeps exactly
the pipelines with `enabled = true`; the output is keyed by each
pipeline's unid with everything after the last `.` stripped, each
key holding the ordered flattened instance records of the
last-processed enabled pipeline with that key (so a later enabled
version of the same pipeline overwrites an earlier one); per index,
`flatten_instance` yields exactly those records; and stripping removes
precisely the final dot-free segment, taking
`namespace.name.type.version` to `namespace.name.type`. -/
theorem C7_dag_config_construction :
    (∀ (integrated : List IPipeline),
      ((integrated.filter (fun p => p.enabled)).all
        (fun p => p.unid.isSome)) = true →
      ∃ conf, integrated_to_dag_config integrated = .ok conf ∧ ∀ k,
        pyGet? conf k =
          (((integrated.filter (fun p => p.enabled)).filter
              (fun p => pyStripVersion (p.unid.getD "") == k)).getLast?).map
            instanceListOf)
    ∧ (∀ (pl : IPipeline) (i : Nat) (inst : IInstance),
      pl.input_output[i]? = some inst →
      flatten_instance pl i = .ok (flattenInstCore pl inst))
    ∧ (∀ (x y : String), (∀ c ∈ y.data, c ≠ '.') →
      pyStripVersion (x ++ "." ++ y) = x) := by
  refine ⟨fun integrated hall => ?_, fun pl i inst h => ?_,
    fun x y hy => ?_⟩
  · obtain ⟨conf, hconf, hchar⟩ :=
      dag_foldlM_char (integrated.filter (fun p => p.enabled)) [] hall
    refine ⟨conf, hconf, fun k => ?_⟩
    rw [hchar k]
    cases hA : ((integrated.filter (fun p => p.enabled)).filter
        (fun p => pyStripVersion (p.unid.getD "") == k)).getLast? <;>
      simp [Option.orElse, hA, pyGet?]
  · simp [flatten_instance, h]
  · have hidx : lastDotIdx (x ++ "." ++ y) = some x.data.length := by
      have hrev : (x ++ "." ++ y).data.reverse =
          y.data.reverse ++ '.' :: x.data.reverse := by
        simp [String.data_append]
      have hnd : ∀ c ∈ y.data.reverse, ¬((c == '.') = true) := by
        intro c hc
        simp only [beq_iff_eq]
        exact hy c (List.mem_reverse.mp hc)
      have hfind : (y.data.reverse ++ '.' :: x.data.reverse).findIdx?
          (fun c => c == '.') = some y.data.length := by
        have h1 : y.data.reverse.findIdx? (fun c => c == '.') = none := by
          rw [List.findIdx?_eq_none_iff]
          intro c hc
          simpa using hnd c hc
        rw [List.findIdx?_append, h1]
        simp [List.findIdx?_cons]
      simp only [lastDotIdx, hrev, hfind]
      have hlen : (x ++ "." ++ y).data.length =
          x.data.length + 1 + y.data.length := by
        simp [String.data_append, show (".".data) = ['.'] from rfl]
        omega
      rw [hlen]
      congr 1
      omega
    simp only [pyStripVersion, hidx]
    have : (x ++ "." ++ y).data = x.data ++ ('.' :: y.data) := by
      simp [String.data_append]
    rw [this, List.take_left' rfl]

/-- An integrated system for the C7 witness. -/
def isysC : ISystem :=
  { id := 1, unid := some "sales.erp", nspace := "sales", name := "erp"
    description := none, type := "internal", config := none
    created := 0, modified := 0 }

/-- An integrated schema for the C7 witness. -/
def ischC : ISchema :=
  { id := 1, unid := some "orders.1", nspace := "sales", name := "orders"
    description := none, type := "avro", version := 1, entity_schema := none
    created := 0, modified := 0 }

/-- An integrated data entity for the C7 witness. -/
def ientC : IEntity :=
  { id := 1, unid := some "sales.sales.erp.orders_raw.dataset"
    nspace := "sales", system := isysC, name := "orders_raw"
    description := none, type := "dataset", interface := "sql"
    entity_schema := ischC, checks := none, config := none
    created := 0, modified := 0 }

/-- Version 1 of an enabled pipeline. -/
def plV1 : IPipeline :=
  { id := 1, unid := some "sales.load.ingest.1", nspace := "sales"
    name := "load", description := none, enabled := true, version := 1
    scope := "single", type := "ingest", velocity := "batch"
    input_output := [{ input := .one ientC, output := .one ientC }]
    config := none, created := 0, modified := 0 }

/-- Version 2 of the same pipeline, also enabled, processed later. -/
def plV2 : IPipeline :=
  { plV1 with id := 2, version := 2, unid := some "sales.load.ingest.2" }

/-- A disabled pipeline with its own key. -/
def plOff : IPipeline :=
  { plV1 with
    id := 3
    name := "off"
    enabled := false
    unid := some "sales.off.ingest.1" }

/-- C7 witness: the characterization applied to a concrete integrated
list with two enabled versions of one pipeline and a disabled one. -/
theorem C7_dag_config_construction_witness :
    ∃ conf, integrated_to_dag_config [plV1, plV2, plOff] = .ok conf
      ∧ ∀ k, pyGet? conf k =
        ((([plV1, plV2, plOff].filter (fun p => p.enabled)).filter
            (fun p => pyStripVersion (p.unid.getD "") == k)).getLast?).map
          instanceListOf :=
  C7_dag_config_construction.1 [plV1, plV2, plOff] rfl

/-! ## C1 -/

/-- A structure produced by `build_from_objects` has its `valid` flag
equal to its report's overall validity. -/
theorem build_valid_eq_report (s st : MetadataStructure)
    (h : build_from_objects s = .ok st) : st.valid = st.report.valid := by
  simp only [build_from_objects, bind, Except.bind] at h
  split at h
  · cases h
  · split at h
    · cases h
    · split at h
      · cases h
      · cases h
        rfl

/-- The shared commit step, on a staged structure whose rebuild
completes but fails validation: return `False`-like and leave the
manager's workspace untouched, parking the failed structure in the
cache. -/
theorem stagedRebuildCommit_invalid (mm : MetadataManager)
    (staged st : MetadataStructure)
    (h1 : build_from_objects staged = .ok st) (h2 : st.valid = false) :
    stagedRebuildCommit mm staged = (.rFalse, { mm with cache := some st }) := by
  simp [stagedRebuildCommit, h1, h2]

/-- C1: commit atomicity. For each of the three mutating operations, if
the staged rebuild completes and the rebuilt structure fails
whole-graph validation, the operation returns its failure value with
the failed structure (whose report is invalid) parked in `cache`, and
the committed workspace — its ids, derived keys, indexes and reference
shapes — is exactly the manager's previous workspace. -/
theorem C1_commit_atomicity :
    (∀ (mm : MetadataManager) (entity : AnyEntity) (rep : Report)
      (entity' : AnyEntity) (st : MetadataStructure),
      validateNewDispatch mm.workspace entity = .ok rep →
      rep.valid = true →
      unid_refs_to_ids mm.workspace.by_unid entity = .ok entity' →
      build_from_objects { mm.workspace with
        md_objects := addToObjects mm.workspace.md_objects entity' } = .ok st →
      st.valid = false →
      add_new_entity mm entity true = (.rFalse, { mm with cache := some st })
        ∧ (add_new_entity mm entity true).2.workspace = mm.workspace
        ∧ st.report.valid = false)
    ∧ (∀ (mm : MetadataManager) (entity : AnyEntity) (now : Nat)
      (e1 : AnyEntity) (byId' : IdIdx) (st : MetadataStructure),
      unid_refs_to_ids mm.workspace.by_unid entity = .ok e1 →
      updateInIdIdx mm.workspace.by_id (stampForUpdate e1 now) = .ok byId' →
      build_from_objects { mm.workspace with
        by_id := byId'
        md_objects := objects_from_id_index byId' } = .ok st →
      st.valid = false →
      update_entity mm entity now = (.rNone, { mm with cache := some st })
        ∧ (update_entity mm entity now).2.workspace = mm.workspace
        ∧ st.report.valid = false)
    ∧ (∀ (mm : MetadataManager) (entity_type unid : String)
      (st : MetadataStructure),
      build_from_objects (deleteStagedStruct mm.workspace entity_type unid)
        = .ok st →
      st.valid = false →
      deleteStaged mm entity_type unid = (.rFalse, { mm with cache := some st })
        ∧ (deleteStaged mm entity_type unid).2.workspace = mm.workspace
        ∧ st.report.valid = false) := by
  refine ⟨fun mm entity rep entity' st h1 h2 h3 h4 h5 => ?_,
    fun mm entity now e1 byId' st h1 h2 h3 h4 => ?_,
    fun mm entity_type unid st h1 h2 => ?_⟩
  · have hmain : add_new_entity mm entity true =
        (.rFalse, { mm with cache := some st }) := by
      simp only [add_new_entity, h1, h2, not_true_eq_false, if_false,
        Bool.not_true, h3]
      exact stagedRebuildCommit_invalid mm _ st h4 h5
    refine ⟨hmain, by rw [hmain], ?_⟩
    rw [← build_valid_eq_report _ st h4]
    exact h5
  · have hmain : update_entity mm entity now =
        (.rNone, { mm with cache := some st }) := by
      simp only [update_entity, h1, h2]
      rw [stagedRebuildCommit_invalid mm _ st h3 h4]
    refine ⟨hmain, by rw [hmain], ?_⟩
    rw [← build_valid_eq_report _ st h3]
    exact h4
  · have hmain : deleteStaged mm entity_type unid =
        (.rFalse, { mm with cache := some st }) := by
      simp only [deleteStaged]
      exact stagedRebuildCommit_invalid mm _ st h1 h2
    refine ⟨hmain, by rw [hmain], ?_⟩
    rw [← build_valid_eq_report _ st h1]
    exact h2

/-- A brand-new namespace, valid against any of the scenario graphs. -/
def nsNew : Namespace := { id := 3, name := "brand_new", created := 0, modified := 0 }

/-- The staged result of adding `nsNew` to the invalid workspace `stW`
(still invalid: the system's enum violation persists). -/
def stAddRes : MetadataStructure :=
  (build_from_objects { stW with
    md_objects := addToObjects stW.md_objects (.ns nsNew) }).toOption.getD
    (mkStruct mdW)

/-- An edit of the scenario schema that breaks its enum. -/
def schUpd : Schema := { schOrders with type := "bogus" }

/-- The staged id index of updating the scenario schema to `schUpd`. -/
def byIdUpd : IdIdx :=
  ((updateInIdIdx stScenario.by_id
    (stampForUpdate (.sch schUpd) 5)).toOption).getD stScenario.by_id

/-- The staged rebuild result of that update (invalid: bad enum). -/
def stUpdRes : MetadataStructure :=
  (build_from_objects { stScenario with
    by_id := byIdUpd
    md_objects := objects_from_id_index byIdUpd }).toOption.getD
    (mkStruct mdScenario)

/-- The staged rebuild result of deleting the unreferenced namespace
`empty` from the invalid workspace `stW` (still invalid). -/
def stDelRes : MetadataStructure :=
  (build_from_objects
    (deleteStagedStruct stW "namespaces" "empty")).toOption.getD
    (mkStruct mdW)

/-- C1 witness: concrete failing transactions of all three kinds — an
add of a valid new namespace to an invalid workspace, an update that
breaks a schema enum on a valid workspace, and a delete of an
unreferenced namespace from an invalid workspace — each leaving the
workspace exactly as it was. -/
theorem C1_commit_atomicity_witness :
    add_new_entity mmW (.ns nsNew) true =
        (.rFalse, { mmW with cache := some stAddRes })
      ∧ update_entity mmScenario (.sch schUpd) 5 =
        (.rNone, { mmScenario with cache := some stUpdRes })
      ∧ deleteStaged mmW "namespaces" "empty" =
        (.rFalse, { mmW with cache := some stDelRes }) := by
  refine ⟨?_, ?_, ?_⟩
  · exact (C1_commit_atomicity.1 mmW (.ns nsNew)
      { valid := true, errors := [] } (.ns nsNew) stAddRes rfl rfl rfl rfl
      rfl).1
  · exact (C1_commit_atomicity.2.1 mmScenario (.sch schUpd) 5 (.sch schUpd)
      byIdUpd stUpdRes rfl rfl rfl rfl).1
  · exact (C1_commit_atomicity.2.2 mmW "namespaces" "empty" stDelRes rfl
      rfl).1

end MetadataLib
